import Mathlib

/-!
Shallow embedding of the tmux-session-manager spec pipeline (packages
pkg/spec and pkg/templates of the Go sources): the data model, structural
validation (Validate), policy validation (ValidatePolicy), the two
compiler stages (BuildFromSpec / FromSpec and Engine.Compile), variable
substitution (subst / expandVars), dry-run rendering and an
execution-trace model of Engine.Execute.

Modelling conventions:
* Go maps are modelled as membership lists (`map[string]bool`) or
  association lists (`map[string]string`); a nil map is an `Option` when
  the code distinguishes nil from empty.
* The process-wide inputs the Go code reads implicitly (os.Getenv, the
  working directory used by filepath.Abs, os.UserHomeDir) are an explicit
  `Sys` record, so every modelled function is pure.
* Go `int` is `Int`.  Go `len` of a string is `String.utf8ByteSize`.
* Unicode-aware Go helpers (strings.TrimSpace, strings.ToLower) are
  modelled over their ASCII behaviour, which is all the pipeline
  exercises.
* Recursion over strings uses a fuel argument equal to the string length
  so that every definition is structural and kernel-reducible; each
  scanner consumes at least one character per step, so the fuel never
  runs out on the initial call.
-/

namespace TSM

/-- Process-wide implicit inputs of the Go code: `os.Getenv`, the working
directory consulted by `filepath.Abs`, and `os.UserHomeDir` (`home = ""`
models the error case of `UserHomeDir`). -/
structure Sys where
  getenv : String → String
  cwd : String
  home : String

namespace go

/-- ASCII whitespace, as in Go's `asciiSpace` table used by
`strings.TrimSpace` ('\t', '\n', '\v', '\f', '\r', ' '). -/
def isSpace (c : Char) : Bool :=
  c = ' ' || c = '\t' || c = '\n' || c = '\r' || c = '\x0b' || c = '\x0c'

/-- Drop a trailing run of characters satisfying `p` (structurally, so the
kernel can reduce it). -/
def dropWhileEndP (p : Char → Bool) : List Char → List Char
  | [] => []
  | c :: cs =>
    match dropWhileEndP p cs with
    | [] => if p c then [] else [c]
    | r => c :: r

/-- strings.TrimSpace on a character list. -/
def trimSpaceL (l : List Char) : List Char :=
  dropWhileEndP isSpace (l.dropWhile isSpace)

/-- strings.TrimSpace. -/
def trimSpace (s : String) : String := ⟨trimSpaceL s.toList⟩

/-- ASCII strings.ToLower on one character. -/
def toLowerChar (c : Char) : Char :=
  if 'A' ≤ c ∧ c ≤ 'Z' then Char.ofNat (c.toNat + 32) else c

/-- ASCII strings.ToLower. -/
def toLower (s : String) : String := ⟨s.toList.map toLowerChar⟩

/-- strings.HasPrefix. -/
def goHasPrefix (s pre : String) : Bool := pre.toList.isPrefixOf s.toList

/-- strings.HasSuffix. -/
def goHasSuffix (s suf : String) : Bool := suf.toList.isSuffixOf s.toList

/-- strings.TrimPrefix. -/
def goTrimPrefix (s pre : String) : String :=
  if goHasPrefix s pre then ⟨s.toList.drop pre.toList.length⟩ else s

/-- strings.TrimSuffix. -/
def goTrimSuffix (s suf : String) : String :=
  if goHasSuffix s suf then ⟨s.toList.take (s.toList.length - suf.toList.length)⟩ else s

/-- strings.Trim with a cutset (both ends). -/
def goTrimCutset (s : String) (cut : List Char) : String :=
  ⟨dropWhileEndP (cut.contains ·) (s.toList.dropWhile (cut.contains ·))⟩

/-- Single-character strings.Contains (the code only asks about ":", "%"). -/
def containsChar (s : String) (c : Char) : Bool := s.toList.contains c

/-- strings.ReplaceAll with single-character pattern and replacement. -/
def replaceAllChar (s : String) (a b : Char) : String :=
  ⟨s.toList.map (fun c => if c = a then b else c)⟩

/-- strings.ReplaceAll with a single-character pattern and a string
replacement (used by shellQuote on `'`). -/
def replaceCharWith (s : String) (a : Char) (t : String) : String :=
  ⟨(s.toList.map (fun c => if c = a then t.toList else [c])).flatten⟩

/-- strings.Fields: split around runs of whitespace.  Fuel-structural. -/
def fieldsAux : Nat → List Char → List (List Char)
  | 0, _ => []
  | _ + 1, [] => []
  | fuel + 1, c :: cs =>
    if isSpace c then fieldsAux fuel cs
    else
      ((c :: cs).takeWhile (fun d => !isSpace d)) ::
        fieldsAux fuel ((c :: cs).dropWhile (fun d => !isSpace d))

/-- strings.Fields. -/
def fields (s : String) : List String :=
  (fieldsAux s.toList.length s.toList).map fun l => (⟨l⟩ : String)

/-- Join a list of strings with a separator (strings.Join). -/
def joinWith (sep : String) : List String → String
  | [] => ""
  | [x] => x
  | x :: rest => x ++ sep ++ joinWith sep rest

/-- Split a character list at a separator character. -/
def splitChar (sep : Char) : List Char → List (List Char)
  | [] => [[]]
  | c :: cs =>
    let r := splitChar sep cs
    if c = sep then [] :: r
    else
      match r with
      | [] => [[c]]
      | w :: ws => (c :: w) :: ws

/-- One step of the lexical path-clean stack (stack kept reversed). -/
def cleanStep (rooted : Bool) (st : List String) (part : String) : List String :=
  if part = "" ∨ part = "." then st
  else if part = ".." then
    match st with
    | [] => if rooted then [] else [".."]
    | x :: rest => if x = ".." then part :: st else rest
  else part :: st

/-- path/filepath Clean for unix paths (lexical simplification; semantics
of Go's Clean, expressed with an element stack). -/
def filepathClean (p : String) : String :=
  if p = "" then "." else
  let rooted := goHasPrefix p "/"
  let parts := (splitChar '/' p.toList).map fun l => (⟨l⟩ : String)
  let st := parts.foldl (cleanStep rooted) []
  let body := joinWith "/" st.reverse
  if rooted then (if body = "" then "/" else "/" ++ body)
  else (if body = "" then "." else body)

/-- filepath.Join of two elements: empty elements are skipped, the result
is cleaned. -/
def filepathJoin (a b : String) : String :=
  if a = "" then (if b = "" then "" else filepathClean b)
  else if b = "" then filepathClean a
  else filepathClean (a ++ "/" ++ b)

/-- filepath.Abs: absolute paths are cleaned, relative ones joined onto
the working directory. -/
def filepathAbs (sys : Sys) (p : String) : String :=
  if goHasPrefix p "/" then filepathClean p else filepathClean (sys.cwd ++ "/" ++ p)

/-- filepath.Base for unix paths. -/
def filepathBase (p : String) : String :=
  if p = "" then "." else
  let l := dropWhileEndP (· = '/') p.toList
  if l = [] then "/"
  else ⟨(l.reverse.takeWhile (· ≠ '/')).reverse⟩

/-- Digit-run value for `atoi`; `none` when empty or a non-digit occurs. -/
def digitsVal : List Char → Option Nat
  | [] => none
  | [c] => if '0' ≤ c ∧ c ≤ '9' then some (c.toNat - '0'.toNat) else none
  | c :: cs =>
    if '0' ≤ c ∧ c ≤ '9' then
      (digitsVal cs).map fun n => (c.toNat - '0'.toNat) * 10 ^ cs.length + n
    else none

/-- strconv.Atoi (the range error of Go is not modelled; no modelled path
feeds numbers anywhere near the int64 range). -/
def atoi (s : String) : Option Int :=
  match s.toList with
  | [] => none
  | '+' :: rest => (digitsVal rest).map Int.ofNat
  | '-' :: rest => (digitsVal rest).map fun n => -(n : Int)
  | l => (digitsVal l).map Int.ofNat

/-- Association-list lookup modelling a Go `map[string]string` read with
its `ok` flag. -/
def mapGet (m : List (String × String)) (k : String) : Option String :=
  match m.find? (fun p => p.1 = k) with
  | some p => some p.2
  | none => none

/-- strings.TrimRight with a cutset. -/
def goTrimRight (s : String) (cut : List Char) : String :=
  ⟨dropWhileEndP (cut.contains ·) s.toList⟩

end go

namespace spec

/-- CurrentVersion of the project-local spec schema. -/
def CurrentVersion : Int := 1

/-- spec.Target. -/
structure Target where
  session : String := ""
  window : String := ""
  pane : String := ""
  deriving DecidableEq

/-- spec.TmuxAction. -/
structure TmuxAction where
  name : String := ""
  args : List String := []
  deriving DecidableEq

/-- spec.RunAction. -/
structure RunAction where
  program : String := ""
  args : List String := []
  enter : Option Bool := none
  deriving DecidableEq

/-- spec.SendKeysAction. -/
structure SendKeysAction where
  keys : List String := []
  enter : Bool := false
  deriving DecidableEq

/-- spec.ShellAction. -/
structure ShellAction where
  cmd : String := ""
  shell : String := ""
  deriving DecidableEq

/-- spec.SleepAction. -/
structure SleepAction where
  milliseconds : Int := 0
  deriving DecidableEq

/-- spec.WatchAction. -/
structure WatchAction where
  intervalSeconds : Int := 0
  command : String := ""
  deriving DecidableEq

/-- spec.WaitForPromptAction. -/
structure WaitForPromptAction where
  timeoutMS : Int := 0
  minQuietMS : Int := 0
  settleMS : Int := 0
  promptRegex : String := ""
  maxLines : Int := 0
  deriving DecidableEq

/-- spec.SshManagerConnectAction. -/
structure SshManagerConnectAction where
  host : String := ""
  user : String := ""
  port : Int := 0
  loginMode : String := ""
  connectTimeoutMS : Int := 0
  deriving DecidableEq

/-- spec.Action (`type'` models the Go field `Type`). -/
structure Action where
  type' : String := ""
  target : Target := {}
  tmux : Option TmuxAction := none
  run : Option RunAction := none
  sendKeys : Option SendKeysAction := none
  shell : Option ShellAction := none
  sleep : Option SleepAction := none
  watch : Option WatchAction := none
  waitForPrompt : Option WaitForPromptAction := none
  sshManagerConnect : Option SshManagerConnectAction := none
  ignoreError : Bool := false
  comment : String := ""
  deriving DecidableEq

/-- spec.PanePlanPane. -/
structure PanePlanPane where
  name : String := ""
  root : String := ""
  focus : Bool := false
  actions : List Action := []
  command : String := ""
  deriving DecidableEq

/-- spec.PanePlanSplit. -/
structure PanePlanSplit where
  direction : String := ""
  size : String := ""
  deriving DecidableEq

/-- spec.PanePlanStep (tagged union: exactly one of pane, split). -/
structure PanePlanStep where
  pane : Option PanePlanPane := none
  split : Option PanePlanSplit := none
  deriving DecidableEq

/-- spec.Pane. -/
structure Pane where
  name : String := ""
  root : String := ""
  focus : Bool := false
  actions : List Action := []
  command : String := ""
  deriving DecidableEq

/-- spec.Window. -/
structure Window where
  name : String := ""
  root : String := ""
  layout : String := ""
  focus : Bool := false
  focusPane : String := ""
  panes : List Pane := []
  panePlan : List PanePlanStep := []
  actions : List Action := []
  deriving DecidableEq

/-- spec.Session (`prefixName` models the Go field `Prefix`). -/
structure Session where
  name : String := ""
  prefixName : String := ""
  root : String := ""
  attach : Option Bool := none
  switchClient : Option Bool := none
  baseIndex : Option Int := none
  paneBaseIndex : Option Int := none
  focusWindow : String := ""
  deriving DecidableEq

/-- spec.Spec. -/
structure Spec where
  version : Int := 0
  name : String := ""
  description : String := ""
  session : Session := {}
  env : List (String × String) := []
  windows : List Window := []
  actions : List Action := []
  meta : List (String × String) := []
  deriving DecidableEq

/-- spec.Policy (runtime allowances; `allowedTmuxCommands = none` models a
nil map). -/
structure Policy where
  allowShell : Bool := false
  allowTmuxPassthrough : Bool := false
  allowedTmuxCommands : Option (List String) := none
  deriving DecidableEq

/-- spec.DefaultPolicy: the conservative allowlist of pkg/spec. -/
def DefaultPolicy : Policy :=
  { allowShell := false
    allowTmuxPassthrough := false
    allowedTmuxCommands := some
      ["new-session", "new-window", "split-window", "rename-window", "rename-session",
       "select-layout", "select-window", "select-pane", "kill-window", "kill-pane",
       "kill-session",
       "send-keys", "set-option", "set-window-option",
       "list-windows", "list-panes", "display-message"] }

/-- The character class `[a-zA-Z0-9_-]` of ValidateTmuxName. -/
def isTmuxNameChar (c : Char) : Bool :=
  ('a' ≤ c ∧ c ≤ 'z') || ('A' ≤ c ∧ c ≤ 'Z') || ('0' ≤ c ∧ c ≤ '9') || c = '_' || c = '-'

/-- spec.ValidateTmuxName. -/
def ValidateTmuxName (name : String) : Except String Unit :=
  let name := go.trimSpace name
  if name = "" then .error "empty name"
  else if name.toList.all isTmuxNameChar then .ok ()
  else .error ("invalid name \"" ++ name ++ "\" (allowed: [a-zA-Z0-9_-])")

/-- The character class `[a-z0-9_-]` kept by sanitizeName. -/
def isSanitizedChar (c : Char) : Bool :=
  ('a' ≤ c ∧ c ≤ 'z') || ('0' ≤ c ∧ c ≤ '9') || c = '_' || c = '-'

/-- The regexp replacement `[^a-z0-9_-]+` → `-` of sanitizeName: each
maximal run of disallowed characters becomes one dash.  Fuel-structural
(dropWhile strictly shortens, so fuel = length suffices). -/
def replaceBadRuns : Nat → List Char → List Char
  | 0, l => l
  | _ + 1, [] => []
  | fuel + 1, c :: cs =>
    if isSanitizedChar c then c :: replaceBadRuns fuel cs
    else '-' :: replaceBadRuns fuel ((c :: cs).dropWhile (fun d => !isSanitizedChar d))

/-- The inner loop of collapseRepeats (prev is the last written rune). -/
def collapseRepeatsAux (ch : Char) : Char → List Char → List Char
  | _, [] => []
  | prev, r :: rest =>
    if r = ch ∧ prev = ch then collapseRepeatsAux ch prev rest
    else r :: collapseRepeatsAux ch r rest

/-- spec.collapseRepeats. -/
def collapseRepeats (s : String) (ch : Char) : String :=
  match s.toList with
  | [] => ""
  | c :: rest => ⟨c :: collapseRepeatsAux ch c rest⟩

/-- spec.sanitizeName. -/
def sanitizeName (s : String) : String :=
  let s := go.toLower (go.trimSpace s)
  if s = "" then ""
  else
    let s := go.replaceAllChar s ' ' '-'
    let s := go.replaceAllChar s '/' '-'
    let s := (⟨replaceBadRuns s.toList.length s.toList⟩ : String)
    let s := go.goTrimCutset s ['-', '_']
    let s := collapseRepeats s '-'
    let s := collapseRepeats s '_'
    if s = "" then "session" else s

/-- spec.DeriveSessionName (`pfx` models the Go parameter `prefix`). -/
def DeriveSessionName (pfx projectPath : String) : String :=
  let base := sanitizeName (go.filepathBase (go.goTrimRight projectPath ['/']))
  if pfx ≠ "" then
    let p := sanitizeName pfx
    if p ≠ "" then p ++ "-" ++ base else base
  else base

/-- spec.validateAction: dispatch on the normalized type, enforce payload
presence and field constraints, and return the normalized action. -/
def validateAction (a : Action) : Except String Action :=
  let t := go.trimSpace (go.toLower a.type')
  if t = "" then .error "missing type"
  else if t = "tmux" then
    match a.tmux with
    | none => .error "tmux action missing tmux\x7b\x7d"
    | some tm =>
      let nm := go.trimSpace tm.name
      if nm = "" then .error "tmux.name is required"
      else .ok { a with type' := t, tmux := some { tm with name := nm } }
  else if t = "run" then
    match a.run with
    | none => .error "run action missing run\x7b\x7d"
    | some r =>
      let p := go.trimSpace r.program
      if p = "" then .error "run.program is required"
      else .ok { a with type' := t, run := some { r with program := p } }
  else if t = "send_keys" then
    match a.sendKeys with
    | none => .error "send_keys action missing send_keys\x7b\x7d"
    | some sk =>
      if sk.keys = [] then .error "send_keys.keys is required"
      else .ok { a with type' := t }
  else if t = "shell" then
    match a.shell with
    | none => .error "shell action missing shell\x7b\x7d"
    | some sh =>
      let c := go.trimSpace sh.cmd
      if c = "" then .error "shell.cmd is required"
      else .ok { a with type' := t, shell := some { sh with cmd := c } }
  else if t = "sleep" then
    match a.sleep with
    | none => .error "sleep action missing sleep\x7b\x7d"
    | some sl =>
      if sl.milliseconds < 0 then .error "sleep.ms must be >= 0"
      else .ok { a with type' := t }
  else if t = "watch" then
    match a.watch with
    | none => .error "watch action missing watch\x7b\x7d"
    | some w =>
      if w.intervalSeconds < 0 then .error "watch.interval_s must be >= 0"
      else
        let c := go.trimSpace w.command
        if c = "" then .error "watch.command is required"
        else .ok { a with type' := t, watch := some { w with command := c } }
  else if t = "wait_for_prompt" then
    match a.waitForPrompt with
    | none => .error "wait_for_prompt action missing wait_for_prompt\x7b\x7d"
    | some w =>
      if w.timeoutMS < 0 then .error "wait_for_prompt.timeout_ms must be >= 0"
      else if w.minQuietMS < 0 then .error "wait_for_prompt.min_quiet_ms must be >= 0"
      else if w.settleMS < 0 then .error "wait_for_prompt.settle_ms must be >= 0"
      else if w.maxLines < 0 then .error "wait_for_prompt.max_lines must be >= 0"
      else
        let w' := { w with promptRegex := go.trimSpace w.promptRegex }
        .ok { a with type' := t, waitForPrompt := some w' }
  else if t = "ssh_manager_connect" then
    match a.sshManagerConnect with
    | none => .error "ssh_manager_connect action missing ssh_manager_connect\x7b\x7d"
    | some c =>
      let host := go.trimSpace c.host
      if host = "" then .error "ssh_manager_connect.host is required"
      else if c.port < 0 then .error "ssh_manager_connect.port must be >= 0"
      else
        let lm0 := go.trimSpace (go.toLower c.loginMode)
        let lm := if lm0 = "" then "askpass" else lm0
        if lm = "askpass" ∨ lm = "manual" ∨ lm = "key" then
          if c.connectTimeoutMS < 0 then .error "ssh_manager_connect.connect_timeout_ms must be >= 0"
          else
            let c' := { c with host := host, user := go.trimSpace c.user, loginMode := lm }
            .ok { a with type' := t, sshManagerConnect := some c' }
        else .error ("ssh_manager_connect.login_mode must be askpass|manual|key (got \"" ++ lm ++ "\")")
  else .error ("unknown action type \"" ++ t ++ "\"")

/-- One step of the validatePanePlan loop. -/
def panePlanStepCheck (i : Nat) (step : PanePlanStep) : Except String Unit :=
  let hasPane := step.pane.isSome
  let hasSplit := step.split.isSome
  if hasPane = hasSplit then
    .error ("step[" ++ toString i ++ "] must have exactly one of pane or split")
  else if hasSplit then
    match step.split with
    | some sp =>
      let dir := go.toLower (go.trimSpace sp.direction)
      if dir ≠ "h" ∧ dir ≠ "v" then
        .error ("step[" ++ toString i ++ "].split.direction must be 'h' or 'v'")
      else .ok ()
    | none => .ok ()
  else .ok ()

/-- The indexed loop of validatePanePlan. -/
def panePlanLoop : Nat → List PanePlanStep → Except String Unit
  | _, [] => .ok ()
  | i, step :: rest =>
    match panePlanStepCheck i step with
    | .error e => .error e
    | .ok _ => panePlanLoop (i + 1) rest

/-- spec.validatePanePlan. -/
def validatePanePlan (steps : List PanePlanStep) : Except String Unit :=
  match steps with
  | [] => .ok ()
  | first :: _ =>
    if first.pane.isNone ∨ first.split.isSome then .error "first step must be pane"
    else
      match panePlanLoop 0 steps with
      | .error e => .error e
      | .ok _ =>
        if (steps.getLast?.map (·.split.isSome)).getD false then
          .error "last step must be pane (cannot end with split)"
        else .ok ()

/-- The shell action a non-empty pane `command` shorthand normalizes to. -/
def shorthandShell (cmd : String) : Action :=
  { type' := "shell", shell := some { cmd := cmd } }

/-- Validate a list of actions, wrapping each error with its indexed
location. -/
def validateActionsList (wrap : Nat → String) : Nat → List Action → Except String (List Action)
  | _, [] => .ok []
  | k, a :: rest =>
    match validateAction a with
    | .error e => .error (wrap k ++ e)
    | .ok a' =>
      match validateActionsList wrap (k + 1) rest with
      | .error e => .error e
      | .ok rest' => .ok (a' :: rest')

/-- Normalize and validate the pane steps of a pane plan (shorthand
commands become shell actions before any policy validation sees them). -/
def validatePlanSteps (i : Nat) (wname : String) : Nat → List PanePlanStep → Except String (List PanePlanStep)
  | _, [] => .ok []
  | si, step :: rest =>
    match step.pane with
    | none => (validatePlanSteps i wname (si + 1) rest).map (step :: ·)
    | some p =>
      let p := if p.command ≠ "" ∧ p.actions = [] then
        { p with actions := [shorthandShell p.command] } else p
      match validateActionsList
          (fun ak => "windows[" ++ toString i ++ "](" ++ wname ++ ").pane_plan[" ++
            toString si ++ "].pane.actions[" ++ toString ak ++ "]: ") 0 p.actions with
      | .error e => .error e
      | .ok acts =>
        (validatePlanSteps i wname (si + 1) rest).map
          ({ step with pane := some { p with actions := acts } } :: ·)

/-- Normalize and validate the legacy panes of a window. -/
def validatePanes (i : Nat) (wname : String) : Nat → List Pane → Except String (List Pane)
  | _, [] => .ok []
  | j, p :: rest =>
    let p := if p.command ≠ "" ∧ p.actions = [] then
      { p with actions := [shorthandShell p.command] } else p
    match validateActionsList
        (fun k => "windows[" ++ toString i ++ "](" ++ wname ++ ").panes[" ++ toString j ++
          "].actions[" ++ toString k ++ "]: ") 0 p.actions with
    | .error e => .error e
    | .ok acts => (validatePanes i wname (j + 1) rest).map ({ p with actions := acts } :: ·)

/-- Validation and normalization of one window of the spec. -/
def validateWindow (i : Nat) (w : Window) : Except String Window :=
  if go.trimSpace w.name = "" then .error ("windows[" ++ toString i ++ "].name is required")
  else
    let fp := go.trimSpace (go.toLower w.focusPane)
    if fp ≠ "" ∧ fp ≠ "active" ∧ ¬ fp.toList.all (fun r => '0' ≤ r ∧ r ≤ '9') then
      .error ("windows[" ++ toString i ++ "](" ++ w.name ++
        ").focus_pane must be \"active\" or a numeric string (got \"" ++ fp ++ "\")")
    else
      let stepsRes : Except String (List PanePlanStep) :=
        if w.panePlan ≠ [] then
          match validatePanePlan w.panePlan with
          | .error e => .error ("windows[" ++ toString i ++ "](" ++ w.name ++ ").pane_plan: " ++ e)
          | .ok _ => validatePlanSteps i w.name 0 w.panePlan
        else .ok w.panePlan
      match stepsRes with
      | .error e => .error e
      | .ok steps =>
        match validatePanes i w.name 0 w.panes with
        | .error e => .error e
        | .ok panes =>
          match validateActionsList
              (fun k => "windows[" ++ toString i ++ "](" ++ w.name ++ ").actions[" ++
                toString k ++ "]: ") 0 w.actions with
          | .error e => .error e
          | .ok acts =>
            .ok { w with focusPane := fp, panePlan := steps, panes := panes, actions := acts }

/-- The indexed window loop of Validate. -/
def validateWindows : Nat → List Window → Except String (List Window)
  | _, [] => .ok []
  | i, w :: rest =>
    match validateWindow i w with
    | .error e => .error e
    | .ok w' => (validateWindows (i + 1) rest).map (w' :: ·)

/-- Normalization of session.focus_window at the end of Validate. -/
def validateFocusWindow (fw0 : String) : Except String String :=
  let fw := go.trimSpace fw0
  if fw = "" then .ok fw
  else
    let lw := go.toLower fw
    if lw = "active" then .ok "active"
    else if fw.toList.all (fun r => '0' ≤ r ∧ r ≤ '9') then .ok fw
    else
      match ValidateTmuxName fw with
      | .error e => .error ("session.focus_window: " ++ e)
      | .ok _ => .ok fw

/-- spec.Validate: structural validation and in-place normalization,
returned as the normalized spec. -/
def Validate (s : Spec) : Except String Spec :=
  let version := if s.version = 0 then CurrentVersion else s.version
  if version ≠ CurrentVersion then
    .error ("unsupported spec version " ++ toString version ++ " (expected " ++
      toString CurrentVersion ++ ")")
  else if s.actions = [] ∧ s.windows = [] then
    .error "spec must define either windows[] or actions[]"
  else
    match validateWindows 0 s.windows with
    | .error e => .error e
    | .ok ws =>
      match validateActionsList (fun i => "actions[" ++ toString i ++ "]: ") 0 s.actions with
      | .error e => .error e
      | .ok acts =>
        let nameCheck : Except String Unit :=
          if s.session.name ≠ "" then
            match ValidateTmuxName s.session.name with
            | .error e => .error ("session.name: " ++ e)
            | .ok _ => .ok ()
          else .ok ()
        match nameCheck with
        | .error e => .error e
        | .ok _ =>
          match validateFocusWindow s.session.focusWindow with
          | .error e => .error e
          | .ok fw =>
            let sess := { s.session with focusWindow := fw }
            .ok { s with version := version, windows := ws, actions := acts, session := sess }

/-- The per-action check closure of ValidatePolicy (`allowed` is the
nil-normalized allowlist). -/
def policyCheck (pol : Policy) (allowed : List String) (a : Action) : Except String Unit :=
  if a.type' = "shell" then
    if ¬ pol.allowShell then .error "shell actions are disabled by policy" else .ok ()
  else if a.type' = "tmux" then
    match a.tmux with
    | none => .error "tmux action missing tmux\x7b\x7d"
    | some t =>
      let cmd := go.trimSpace t.name
      if cmd = "" then .error "tmux.name is required"
      else if ¬ pol.allowTmuxPassthrough ∧ ¬ allowed.contains cmd then
        .error ("tmux command \"" ++ cmd ++ "\" not allowed by policy")
      else .ok ()
  else .ok ()

/-- ValidatePolicy's walk over one list of actions, wrapping errors. -/
def policyCheckList (pol : Policy) (allowed : List String) (wrap : String → String) :
    List Action → Except String Unit
  | [] => .ok ()
  | a :: rest =>
    match policyCheck pol allowed a with
    | .error e => .error (wrap e)
    | .ok _ => policyCheckList pol allowed wrap rest

/-- ValidatePolicy's walk over the panes of a window. -/
def policyCheckPanes (pol : Policy) (allowed : List String) (wname : String) :
    List Pane → Except String Unit
  | [] => .ok ()
  | p :: rest =>
    match policyCheckList pol allowed
        (fun e => "window \"" ++ wname ++ "\" pane \"" ++ p.name ++ "\": " ++ e) p.actions with
    | .error e => .error e
    | .ok _ => policyCheckPanes pol allowed wname rest

/-- ValidatePolicy's walk over the windows. -/
def policyCheckWindows (pol : Policy) (allowed : List String) :
    List Window → Except String Unit
  | [] => .ok ()
  | w :: rest =>
    match policyCheckList pol allowed (fun e => "window \"" ++ w.name ++ "\": " ++ e) w.actions with
    | .error e => .error e
    | .ok _ =>
      match policyCheckPanes pol allowed w.name w.panes with
      | .error e => .error e
      | .ok _ => policyCheckWindows pol allowed rest

/-- The nil-normalization of the allowlist at the head of
ValidatePolicy. -/
def effectiveSpecAllowlist (pol : Policy) : List String :=
  match pol.allowedTmuxCommands with
  | none => (DefaultPolicy.allowedTmuxCommands).getD []
  | some l => l

/-- spec.ValidatePolicy: enforce AllowShell and the tmux allowlist over
spec-level, window-level and (legacy) pane-level actions.  Note: pane-plan
pane actions are not walked here, and no denylist exists in this
package. -/
def ValidatePolicy (s : Spec) (pol : Policy) : Except String Unit :=
  let allowed := effectiveSpecAllowlist pol
  match policyCheckList pol allowed id s.actions with
  | .error e => .error e
  | .ok _ => policyCheckWindows pol allowed s.windows

end spec

namespace templates

/-- Context provides variable substitution and target session information
(templates.Context).  `env` is an `Option` because the code distinguishes
a nil map from an empty one. -/
structure Context where
  projectName : String := ""
  projectPath : String := ""
  sessionName : String := ""
  workingDir : String := ""
  env : Option (List (String × String)) := none
  tmuxSocket : String := ""
  deriving DecidableEq

/-- First character class of the identifier in `reVar`
(`[A-Za-z_]`). -/
def isVarFirst (c : Char) : Bool :=
  ('A' ≤ c ∧ c ≤ 'Z') || ('a' ≤ c ∧ c ≤ 'z') || c = '_'

/-- Rest character class of the identifier in `reVar` (`[A-Za-z0-9_]`). -/
def isVarRest (c : Char) : Bool :=
  isVarFirst c || ('0' ≤ c ∧ c ≤ '9')

/-- Split a maximal run of identifier-rest characters from the front. -/
def spanVarRest : List Char → List Char × List Char
  | [] => ([], [])
  | c :: cs =>
    if isVarRest c then
      let (a, b) := spanVarRest cs
      (c :: a, b)
    else ([], c :: cs)

/-- The lazy `(?::-(.*?))?\}` tail of `reVar`: the default text is the run
of characters before the first `}`; the scan fails at a newline (Go's `.`
does not match newlines) or at end of input. -/
def scanDefault : List Char → Option (List Char × List Char)
  | [] => none
  | c :: cs =>
    if c = '}' then some ([], cs)
    else if c = '\n' then none
    else (scanDefault cs).map fun (d, rest) => (c :: d, rest)

/-- Match `reVar` = `\$\{([A-Za-z_][A-Za-z0-9_]*)(?::-(.*?))?\}` at the
head of the input.  Returns the identifier, the default (the empty string
when the optional group is absent, exactly as Go's submatch slice does)
and the input after the match. -/
def tryMatchVar (l : List Char) : Option (String × String × List Char) :=
  match l with
  | a :: b :: rest =>
    if a = '$' ∧ b = '{' then
      match rest with
      | [] => none
      | c :: cs =>
        if isVarFirst c then
          let (tail, rest1) := spanVarRest cs
          match rest1 with
          | '}' :: rest2 => some (⟨c :: tail⟩, "", rest2)
          | ':' :: '-' :: rest2 =>
            (scanDefault rest2).map fun (d, r) => (⟨c :: tail⟩, ⟨d⟩, r)
          | _ => none
        else none
    else none
  | _ => none

/-- The leftmost, non-overlapping scan of `reVar.ReplaceAllStringFunc`: at
each position try the pattern; on a match emit the lookup result (never
rescanned) and continue after the match, otherwise keep the character.
Fuel-structural; every step consumes at least one input character, so
fuel = input length always suffices. -/
def expandVarsAux (lookup : String → String → String) : Nat → List Char → List Char
  | 0, l => l
  | _ + 1, [] => []
  | fuel + 1, c :: cs =>
    match tryMatchVar (c :: cs) with
    | some (key, dflt, rest) => (lookup key dflt).toList ++ expandVarsAux lookup fuel rest
    | none => c :: expandVarsAux lookup fuel cs

/-- expandVars from the Go source. -/
def expandVars (s : String) (lookup : String → String → String) : String :=
  if s = "" then s else ⟨expandVarsAux lookup s.toList.length s.toList⟩

/-- The built-in switch inside subst's lookup closure: a built-in answers
only when the corresponding context field is non-empty, otherwise the
switch falls through. -/
def builtinVal (ctx : Context) (key : String) : Option String :=
  if key = "PROJECT_NAME" then (if ctx.projectName ≠ "" then some ctx.projectName else none)
  else if key = "PROJECT_PATH" then (if ctx.projectPath ≠ "" then some ctx.projectPath else none)
  else if key = "SESSION_NAME" then (if ctx.sessionName ≠ "" then some ctx.sessionName else none)
  else if key = "TMUX_SOCK" then (if ctx.tmuxSocket ≠ "" then some ctx.tmuxSocket else none)
  else none

/-- subst's lookup closure: built-ins, then the context env (present and
non-empty), then the process env (non-empty), then the default. -/
def substLookup (sys : Sys) (ctx : Context) (key dflt : String) : String :=
  match builtinVal ctx key with
  | some v => v
  | none =>
    let fromEnv : Option String :=
      match ctx.env with
      | some m =>
        (match go.mapGet m key with
          | some v => if v ≠ "" then some v else none
          | none => none)
      | none => none
    match fromEnv with
    | some v => v
    | none => if sys.getenv key ≠ "" then sys.getenv key else dflt

/-- subst replaces ${VARS} in a string using Context + environment. -/
def subst (sys : Sys) (ctx : Context) (s : String) : String :=
  expandVars s (substLookup sys ctx)

/-- expandUser expands a leading `~` or `~/` to the user home
(`sys.home = ""` models the `os.UserHomeDir` error case). -/
def expandUser (sys : Sys) (p : String) : String :=
  let p := go.trimSpace p
  if p = "" then p
  else if p = "~" || go.goHasPrefix p "~/" then
    if sys.home = "" then p
    else if p = "~" then sys.home
    else go.filepathJoin sys.home ⟨p.toList.drop 2⟩
  else p

/-- The characters that force quoting in shellQuote. -/
def shellSpecialChars : List Char :=
  [' ', '\t', '\n', '"', '\'', '\\', '$', '`', '&', '|', ';', '<', '>',
   '(', ')', '{', '}', '*', '?', '!', '~', '#']

/-- shellQuote from the Go source. -/
def shellQuote (s : String) : String :=
  if s = "" then "''"
  else if s.toList.any (shellSpecialChars.contains ·) then
    "'" ++ go.replaceCharWith s '\'' "'\\\"'\\\"'" ++ "'"
  else s

/-- shellJoin from the Go source. -/
def shellJoin (args : List String) : String :=
  go.joinWith " " (args.map shellQuote)

/-- templates.Policy (the Engine policy).  `allowedTmuxCommands = []`
models a nil or empty map (the code only tests `len`);
`disallowTmuxCommands = none` models a nil map (the code tests nil). -/
structure Policy where
  allowShell : Bool := false
  allowTmuxPassthrough : Bool := false
  allowedTmuxCommands : List String := []
  disallowTmuxCommands : Option (List String) := none
  maxActions : Int := 0
  maxCommandLen : Int := 0
  deriving DecidableEq

/-- templates.defaultAllowedTmuxCommands. -/
def defaultAllowedTmuxCommands : List String :=
  ["new-session", "kill-session", "rename-session", "switch-client", "select-session",
   "new-window", "kill-window", "rename-window", "select-window", "move-window",
   "swap-window", "list-windows", "list-sessions",
   "split-window", "kill-pane", "select-pane", "resize-pane", "select-layout",
   "send-keys", "display-message", "set-option", "set-buffer"]

/-- templates.DefaultPolicy. -/
def DefaultPolicy : Policy :=
  { allowShell := false
    allowTmuxPassthrough := false
    allowedTmuxCommands := defaultAllowedTmuxCommands
    disallowTmuxCommands := some ["run-shell", "if-shell", "pipe-pane", "respawn-pane"]
    maxActions := 200
    maxCommandLen := 4096 }

/-- The tmux-passthrough subcommand extraction of compileAction
(`sub0`/`sub1`/`sub` in the source), as a function of the substituted
argv head. -/
def subOf (h : String) : String :=
  (go.fields (go.goTrimPrefix (go.trimSpace h) "tmux ")).headD ""

/-- The effective passthrough allowlist of compileAction: the policy's
list, or the default set when the policy's list is empty/nil. -/
def effAllow (pol : Policy) : List String :=
  if pol.allowedTmuxCommands = [] then defaultAllowedTmuxCommands
  else pol.allowedTmuxCommands

/-- ActionKind constants (Go `type ActionKind string`). -/
def ActionEnsureSession : String := "ensure_session"

def ActionNewWindow : String := "new_window"

def ActionSplitWindow : String := "split_window"

def ActionSelectWindow : String := "select_window"

def ActionSelectPane : String := "select_pane"

def ActionSelectLayout : String := "select_layout"

def ActionSendKeys : String := "send_keys"

def ActionSetOption : String := "set_option"

def ActionDisplay : String := "display_message"

def ActionRenameWindow : String := "rename_window"

def ActionWaitForPrompt : String := "wait_for_prompt"

def ActionSshManagerConnect : String := "ssh_manager_connect"

def ActionShell : String := "shell"

def ActionTmux : String := "tmux"

/-- templates.Action (`kind` is the Go field `Kind`, `fromName` the Go
field `From`). -/
structure Action where
  kind : String := ""
  session : String := ""
  window : String := ""
  pane : String := ""
  cwd : String := ""
  name : String := ""
  fromName : String := ""
  direction : String := ""
  percent : Int := 0
  layout : String := ""
  command : String := ""
  keys : List String := []
  enter : Bool := false
  timeoutMS : Int := 0
  minQuietMS : Int := 0
  settleMS : Int := 0
  promptRe : String := ""
  maxLines : Int := 0
  host : String := ""
  user : String := ""
  port : Int := 0
  loginMode : String := ""
  connectTimeoutMS : Int := 0
  option : String := ""
  value : String := ""
  global : Bool := false
  message : String := ""
  durationMS : Int := 0
  shell : String := ""
  tmuxArgs : List String := []
  deriving DecidableEq

/-- templates.Spec (`unsafeFlag` models the Go field `Unsafe`). -/
structure Spec where
  version : Int := 0
  id : String := ""
  name : String := ""
  actions : List Action := []
  unsafeFlag : Bool := false
  deriving DecidableEq

/-- templates.Command (`unsafeFlag` models the Go field `Unsafe`). -/
structure Command where
  args : List String := []
  explanation : String := ""
  unsafeFlag : Bool := false
  deriving DecidableEq

/-- templates.Compiled (`unsafeUsed` models the Go field `UnsafeUsed`). -/
structure Compiled where
  commands : List Command := []
  unsafeUsed : Bool := false
  warnings : List String := []
  deriving DecidableEq

/-- The target computation shared by the send-keys, wait_for_prompt and
ssh_manager_connect arms of compileAction. -/
def paneTarget (session window pane : String) : String :=
  let target := if go.trimSpace window ≠ "" then session ++ ":" ++ go.trimSpace window else session
  if go.trimSpace pane ≠ "" then
    if go.goHasPrefix (go.trimSpace pane) "%" then go.trimSpace pane
    else target ++ "." ++ go.trimSpace pane
  else target

/-- The `session` local at the head of compileAction: the action's
trimmed session, defaulting to the context session name. -/
def actSession (ctx : Context) (a : Action) : String :=
  let s := go.trimSpace a.session
  if s = "" then ctx.sessionName else s

/-- The `cwd` local at the head of compileAction: the action's trimmed
cwd (substituted and user-expanded), defaulting to the context working
directory. -/
def actCwd (sys : Sys) (ctx : Context) (a : Action) : String :=
  let c := go.trimSpace a.cwd
  if c = "" then ctx.workingDir else expandUser sys (subst sys ctx c)

/-- The ensure_session arm of compileAction. -/
def ensureSessionCmds (session cwd : String) :
    Except String (List Command × Bool × List String) :=
  .ok ([⟨["new-session", "-d", "-s", session, "-c", cwd],
        "create detached session if missing (may fail if exists)", false⟩],
       false,
       ["ensure_session is non-atomic in pure tmux command lists; consider pre-checking in code"])

/-- The new_window arm of compileAction. -/
def newWindowCmds (sys : Sys) (ctx : Context) (a : Action) (session cwd : String) :
    Except String (List Command × Bool × List String) :=
  let name := go.trimSpace a.name
  if name = "" then .error "new_window: missing Name"
  else
    let args := ["new-window", "-t", session, "-n", name, "-c", cwd]
    let args := if go.trimSpace a.command ≠ "" then
      args ++ ["--", "bash", "-lc", subst sys ctx a.command] else args
    .ok ([⟨args, "create window " ++ name, false⟩], false, [])

/-- The split_window arm of compileAction. -/
def splitWindowCmds (sys : Sys) (ctx : Context) (a : Action) (session cwd : String) :
    Except String (List Command × Bool × List String) :=
  let dir := go.toLower (go.trimSpace a.direction)
  if dir ≠ "h" ∧ dir ≠ "v" then .error "split_window: Direction must be 'h' or 'v'"
  else
    let flag := if dir = "h" then "-h" else "-v"
    let target := if go.trimSpace a.window ≠ "" then
      session ++ ":" ++ go.trimSpace a.window else session
    if a.percent > 0 ∧ (a.percent < 1 ∨ a.percent > 99) then
      .error "split_window: Percent must be 1-99"
    else
      let args := ["split-window", flag, "-t", target, "-c", cwd]
      let args := if a.percent > 0 then args ++ ["-p", toString a.percent] else args
      let args := if go.trimSpace a.command ≠ "" then
        args ++ ["--", "bash", "-lc", subst sys ctx a.command] else args
      .ok ([⟨args, "split window (" ++ dir ++ ")", false⟩], false, [])

/-- The rename_window arm of compileAction. -/
def renameWindowCmds (a : Action) (session : String) :
    Except String (List Command × Bool × List String) :=
  let newName := go.trimSpace a.name
  if newName = "" then .error "rename_window: missing Name (new window name)"
  else
    let from1 := go.trimSpace a.fromName
    let from2 := if from1 = "" then go.trimSpace a.window else from1
    let from3 := if from2 = "" then "0" else from2
    let target := session ++ ":" ++ from3
    .ok ([⟨["rename-window", "-t", target, newName],
          "rename window " ++ target ++ " -> " ++ newName, false⟩], false, [])

/-- The select_window arm of compileAction. -/
def selectWindowCmds (a : Action) (session : String) :
    Except String (List Command × Bool × List String) :=
  if go.trimSpace a.window = "" then .error "select_window: missing Window"
  else
    let target := session ++ ":" ++ go.trimSpace a.window
    .ok ([⟨["select-window", "-t", target], "select window " ++ target, false⟩], false, [])

/-- The select_pane arm of compileAction. -/
def selectPaneCmds (a : Action) (session : String) :
    Except String (List Command × Bool × List String) :=
  if go.trimSpace a.pane = "" then .error "select_pane: missing Pane"
  else
    let t0 := go.trimSpace a.pane
    let target := if ¬ go.goHasPrefix t0 "%" ∧ ¬ go.containsChar t0 ':' then
      session ++ ":." ++ t0 else t0
    .ok ([⟨["select-pane", "-t", target], "select pane " ++ target, false⟩], false, [])

/-- The select_layout arm of compileAction. -/
def selectLayoutCmds (a : Action) (session : String) :
    Except String (List Command × Bool × List String) :=
  let layout := go.trimSpace a.layout
  if layout = "" then .error "select_layout: missing Layout"
  else
    let target := if go.trimSpace a.window ≠ "" then
      session ++ ":" ++ go.trimSpace a.window else session
    .ok ([⟨["select-layout", "-t", target, layout], "select layout " ++ layout, false⟩],
         false, [])

/-- The send_keys arm of compileAction. -/
def sendKeysCmds (sys : Sys) (ctx : Context) (a : Action) (session : String) :
    Except String (List Command × Bool × List String) :=
  let target := paneTarget session a.window a.pane
  if a.keys = [] ∧ go.trimSpace a.command = "" then .error "send_keys: missing Keys or Command"
  else
    let keys : List String :=
      if a.keys ≠ [] then (a.keys.map (fun k => go.trimSpace (subst sys ctx k))).filter (· ≠ "")
      else [subst sys ctx a.command]
    let args := ["send-keys", "-t", target] ++ keys ++ (if a.enter then ["C-m"] else [])
    .ok ([⟨args, "send keys to " ++ target, false⟩], false, [])

/-- The wait_for_prompt arm of compileAction. -/
def waitForPromptCmds (a : Action) (session : String) :
    Except String (List Command × Bool × List String) :=
  let target := paneTarget session a.window a.pane
  let timeoutMS := if a.timeoutMS ≤ 0 then 15000 else a.timeoutMS
  let minQuietMS := if a.minQuietMS ≤ 0 then 500 else a.minQuietMS
  let settleMS := if a.settleMS ≤ 0 then 250 else a.settleMS
  let maxLines := if a.maxLines ≤ 0 then 200 else a.maxLines
  let promptRe := go.trimSpace a.promptRe
  .ok ([⟨["__wait_for_prompt__", target, toString timeoutMS, toString minQuietMS,
         toString settleMS, toString maxLines, promptRe],
        "wait for prompt (best-effort) in " ++ target, false⟩], false, [])

/-- The ssh_manager_connect arm of compileAction. -/
def sshConnectCmds (a : Action) (session : String) :
    Except String (List Command × Bool × List String) :=
  let target := paneTarget session a.window a.pane
  let host := go.trimSpace a.host
  if host = "" then .error "ssh_manager_connect: missing Host"
  else
    let user := go.trimSpace a.user
    let login0 := go.trimSpace (go.toLower a.loginMode)
    let login := if login0 = "" then "askpass" else login0
    let port := if a.port < 0 then 0 else a.port
    let cto := if a.connectTimeoutMS < 0 then 0 else a.connectTimeoutMS
    .ok ([⟨["__ssh_manager_connect__", target, host, user, toString port, login, toString cto],
          "ssh_manager_connect " ++ host ++ " in " ++ target, false⟩], false, [])

/-- The set_option arm of compileAction. -/
def setOptionCmds (sys : Sys) (ctx : Context) (a : Action) (session : String) :
    Except String (List Command × Bool × List String) :=
  if go.trimSpace a.option = "" then .error "set_option: missing Option"
  else
    let opt := go.trimSpace a.option
    let val := subst sys ctx a.value
    let args := ["set-option"] ++ (if a.global then ["-g"] else ["-t", session]) ++ [opt, val]
    .ok ([⟨args, "set option " ++ opt, false⟩], false, [])

/-- The display_message arm of compileAction. -/
def displayCmds (sys : Sys) (ctx : Context) (a : Action) :
    Except String (List Command × Bool × List String) :=
  let msg := subst sys ctx a.message
  if go.trimSpace msg = "" then .error "display_message: missing Message"
  else
    let d := if a.durationMS ≤ 0 then 1500 else a.durationMS
    .ok ([⟨["display-message", "-d", toString d, msg], "display message", false⟩], false, [])

/-- The shell arm of compileAction. -/
def shellCmds (pol : Policy) (sys : Sys) (ctx : Context) (a : Action) (session cwd : String) :
    Except String (List Command × Bool × List String) :=
  if ¬ pol.allowShell then .error "shell action disabled by policy"
  else
    let sh0 := go.trimSpace a.shell
    let sh1 := if sh0 = "" then go.trimSpace a.command else sh0
    if sh1 = "" then .error "shell: missing Shell/Command"
    else
      let name := let n := go.trimSpace a.name; if n = "" then "shell" else n
      let sh := subst sys ctx sh1
      let args := ["new-window", "-t", session, "-n", name, "-c", cwd, "--", "bash", "-lc", sh]
      .ok ([⟨args, "unsafe shell window " ++ name, true⟩], true, [])

/-- The tmux passthrough arm of compileAction. -/
def tmuxCmds (pol : Policy) (sys : Sys) (ctx : Context) (a : Action) :
    Except String (List Command × Bool × List String) :=
  if ¬ pol.allowTmuxPassthrough then .error "tmux passthrough disabled by policy"
  else if a.tmuxArgs = [] then .error "tmux: missing TmuxArgs"
  else
    let args := a.tmuxArgs.map (subst sys ctx)
    -- NOTE: when the trimmed head is all blank, Go's
    -- strings.Fields(sub1)[0] would panic; the model yields "" and the
    -- next check rejects it.
    let sub := subOf (args.headD "")
    if sub = "" then .error "tmux: empty subcommand"
    else
      let disallowedHit :=
        match pol.disallowTmuxCommands with
        | some dis => dis.contains sub
        | none => false
      if disallowedHit then .error ("tmux: subcommand \"" ++ sub ++ "\" is disallowed")
      else
        let allow := effAllow pol
        if ¬ allow.contains sub then .error ("tmux: subcommand \"" ++ sub ++ "\" not in allowlist")
        else .ok ([⟨args, "unsafe tmux passthrough", true⟩], true, [])

/-- Engine.compileAction: lower one action into tmux commands (one arm
helper per switch case, as above).  Returns (commands, unsafe-used,
warnings). -/
def compileAction (pol : Policy) (sys : Sys) (ctx : Context) (a : Action) :
    Except String (List Command × Bool × List String) :=
  if a.kind = ActionEnsureSession then ensureSessionCmds (actSession ctx a) (actCwd sys ctx a)
  else if a.kind = ActionNewWindow then newWindowCmds sys ctx a (actSession ctx a) (actCwd sys ctx a)
  else if a.kind = ActionSplitWindow then splitWindowCmds sys ctx a (actSession ctx a) (actCwd sys ctx a)
  else if a.kind = ActionRenameWindow then renameWindowCmds a (actSession ctx a)
  else if a.kind = ActionSelectWindow then selectWindowCmds a (actSession ctx a)
  else if a.kind = ActionSelectPane then selectPaneCmds a (actSession ctx a)
  else if a.kind = ActionSelectLayout then selectLayoutCmds a (actSession ctx a)
  else if a.kind = ActionSendKeys then sendKeysCmds sys ctx a (actSession ctx a)
  else if a.kind = ActionWaitForPrompt then waitForPromptCmds a (actSession ctx a)
  else if a.kind = ActionSshManagerConnect then sshConnectCmds a (actSession ctx a)
  else if a.kind = ActionSetOption then setOptionCmds sys ctx a (actSession ctx a)
  else if a.kind = ActionDisplay then displayCmds sys ctx a
  else if a.kind = ActionShell then shellCmds pol sys ctx a (actSession ctx a) (actCwd sys ctx a)
  else if a.kind = ActionTmux then tmuxCmds pol sys ctx a
  else .error ("unknown action kind \"" ++ a.kind ++ "\"")

/-- Total argument length of one command exactly as the Compile size guard
computes it: the byte length of each argument plus one. -/
def cmdArgTotal (c : Command) : Int :=
  c.args.foldl (fun t a => t + (a.utf8ByteSize : Int) + 1) 0

/-- The indexed action loop of Engine.Compile. -/
def compileActionsLoop (pol : Policy) (sys : Sys) (ctx : Context) :
    Nat → List Action → Except String (List Command × Bool × List String)
  | _, [] => .ok ([], false, [])
  | i, a :: rest =>
    match compileAction pol sys ctx a with
    | .error e => .error ("spec action[" ++ toString i ++ "] (" ++ a.kind ++ "): " ++ e)
    | .ok (cmds, u, ws) =>
      match compileActionsLoop pol sys ctx (i + 1) rest with
      | .error e => .error e
      | .ok (cs, u2, ws2) => .ok (cmds ++ cs, u || u2, ws ++ ws2)

/-- The post-emission size-guard loop of Engine.Compile. -/
def checkCommandLens (maxLen : Int) : Nat → List Command → Except String Unit
  | _, [] => .ok ()
  | i, c :: rest =>
    if cmdArgTotal c > maxLen then
      .error ("compiled command[" ++ toString i ++ "] too long (" ++ toString (cmdArgTotal c) ++
        " chars > " ++ toString maxLen ++ ")")
    else checkCommandLens maxLen (i + 1) rest

/-- The context normalization at the head of Engine.Compile. -/
def normalizeCompileCtx (sys : Sys) (ctx : Context) : Context :=
  let pp := go.filepathAbs sys (expandUser sys ctx.projectPath)
  let pn := if ctx.projectName = "" then go.filepathBase pp else ctx.projectName
  let wd := if ctx.workingDir = "" then pp else ctx.workingDir
  { ctx with projectPath := pp, projectName := pn, workingDir := wd }

/-- Engine.Compile: validate and compile the spec to tmux commands
without executing. -/
def Compile (pol : Policy) (sys : Sys) (ctx : Context) (sp : Spec) : Except String Compiled :=
  let maxActions := if pol.maxActions ≤ 0 then 200 else pol.maxActions
  let maxCommandLen := if pol.maxCommandLen ≤ 0 then 4096 else pol.maxCommandLen
  if ctx.sessionName = "" then .error "context: missing SessionName"
  else if ctx.projectPath = "" then .error "context: missing ProjectPath"
  else
    let ctx := normalizeCompileCtx sys ctx
    if sp.actions = [] then .error "spec: no actions"
    else if (sp.actions.length : Int) > maxActions then
      .error ("spec: too many actions (" ++ toString sp.actions.length ++ " > " ++
        toString maxActions ++ ")")
    else
      match compileActionsLoop pol sys ctx 0 sp.actions with
      | .error e => .error e
      | .ok (cmds, u, ws) =>
        match checkCommandLens maxCommandLen 0 cmds with
        | .error e => .error e
        | .ok _ => .ok ⟨cmds, u, ws⟩

/-- templates.DryRunLines. -/
def DryRunLines (compiled : Compiled) : List String :=
  (if compiled.unsafeUsed then
    ["WARNING: unsafe actions present (shell and/or tmux passthrough)"] else [])
  ++ compiled.warnings.map (fun w => "WARN: " ++ w)
  ++ (compiled.commands.map fun c =>
       let pfx := if c.unsafeFlag then "tmux (unsafe) " else "tmux "
       (if c.explanation ≠ "" then [pfx ++ "# " ++ c.explanation] else [])
         ++ [pfx ++ shellJoin c.args]).flatten

/-- templates.RenderDryRun. -/
def RenderDryRun (compiled : Compiled) : String :=
  go.joinWith "\n" (DryRunLines compiled)

/-- templates.BuildOptions. -/
structure BuildOptions where
  projectRoot : String := ""
  projectName : String := ""
  sessionName : String := ""
  preferWindows : Bool := false
  includeEnsureSession : Bool := false
  allowShell : Bool := false
  allowTmuxPassthrough : Bool := false
  allowedTmuxCommands : List String := []
  disallowTmuxCommands : Option (List String) := none
  deriving DecidableEq

/-- fmt.Sprintf("%.3f", float64(ms)/1000.0) for the non-negative
millisecond counts the sleep conversion feeds it (the quotient has at
most three decimals, so the rounding of %.3f reproduces it exactly). -/
def fmtSleepSeconds (ms : Int) : String :=
  let q := ms / 1000
  let r := ms % 1000
  toString q ++ "." ++ (if r < 10 then "00" else if r < 100 then "0" else "") ++ toString r

/-- convertSingleAction: lower one spec.Action into Engine actions,
enforcing the policy gates.  Returns the kind tag (present even on
error, as in Go) with the result. -/
def convertSingleAction (sys : Sys) (ctx : Context) (defaultSession : String)
    (a : spec.Action) (pol : spec.Policy) (disallowed : List String) :
    String × Except String (List Action × Bool) :=
  let sess := let s := go.trimSpace a.target.session; if s = "" then defaultSession else s
  if a.type' = "send_keys" then
    ("send_keys",
      match a.sendKeys with
      | none => .error "missing send_keys\x7b\x7d"
      | some sk =>
        .ok ([{ kind := ActionSendKeys
                session := sess
                window := go.trimSpace a.target.window
                pane := go.trimSpace a.target.pane
                keys := sk.keys
                enter := sk.enter }], false))
  else if a.type' = "run" then
    ("run",
      match a.run with
      | none => .error "missing run\x7b\x7d"
      | some r =>
        let cmdLine := shellJoin (r.program :: r.args)
        .ok ([{ kind := ActionSendKeys
                session := sess
                window := go.trimSpace a.target.window
                pane := go.trimSpace a.target.pane
                command := cmdLine
                enter := r.enter.getD true }], false))
  else if a.type' = "ssh_manager_connect" then
    ("ssh_manager_connect",
      match a.sshManagerConnect with
      | none => .error "missing ssh_manager_connect\x7b\x7d"
      | some c =>
        .ok ([{ kind := ActionSshManagerConnect
                session := sess
                window := go.trimSpace a.target.window
                pane := go.trimSpace a.target.pane
                host := go.trimSpace c.host
                user := go.trimSpace c.user
                port := c.port
                loginMode := go.trimSpace (go.toLower c.loginMode)
                connectTimeoutMS := c.connectTimeoutMS }], false))
  else if a.type' = "wait_for_prompt" then
    ("wait_for_prompt",
      match a.waitForPrompt with
      | none => .error "missing wait_for_prompt\x7b\x7d"
      | some w =>
        .ok ([{ kind := ActionWaitForPrompt
                session := sess
                window := go.trimSpace a.target.window
                pane := go.trimSpace a.target.pane
                timeoutMS := w.timeoutMS
                minQuietMS := w.minQuietMS
                settleMS := w.settleMS
                promptRe := go.trimSpace w.promptRegex
                maxLines := w.maxLines }], false))
  else if a.type' = "watch" then
    ("watch",
      match a.watch with
      | none => .error "missing watch\x7b\x7d"
      | some w =>
        let interval := if w.intervalSeconds ≤ 0 then 2 else w.intervalSeconds
        let cmd := go.trimSpace w.command
        if cmd = "" then .error "watch.command empty"
        else
          let wrapped := "watch -n " ++ toString interval ++ " -t -- " ++ cmd
          .ok ([{ kind := ActionSendKeys
                  session := sess
                  window := go.trimSpace a.target.window
                  pane := go.trimSpace a.target.pane
                  command := wrapped
                  enter := true }], false))
  else if a.type' = "shell" then
    ("shell",
      match a.shell with
      | none => .error "missing shell\x7b\x7d"
      | some sh =>
        if ¬ pol.allowShell then .error "shell actions disabled by policy"
        else
          let cmd := go.trimSpace sh.cmd
          if cmd = "" then .error "shell.cmd empty"
          else
            .ok ([{ kind := ActionShell
                    session := sess
                    window := go.trimSpace a.target.window
                    pane := go.trimSpace a.target.pane
                    shell := cmd }], true))
  else if a.type' = "tmux" then
    ("tmux",
      match a.tmux with
      | none => .error "missing tmux\x7b\x7d"
      | some t =>
        if ¬ pol.allowTmuxPassthrough then .error "tmux passthrough disabled by policy"
        else
          let cmd := go.trimSpace t.name
          if cmd = "" then .error "tmux.name empty"
          else if disallowed.contains cmd then
            .error ("tmux subcommand \"" ++ cmd ++ "\" is disallowed")
          else if (match pol.allowedTmuxCommands with
                   | some l => !(l.contains cmd)
                   | none => false) then
            .error ("tmux subcommand \"" ++ cmd ++ "\" not in allowlist")
          else
            .ok ([{ kind := ActionTmux
                    session := sess
                    window := go.trimSpace a.target.window
                    pane := go.trimSpace a.target.pane
                    tmuxArgs := cmd :: t.args }], true))
  else if a.type' = "sleep" then
    ("sleep",
      match a.sleep with
      | none => .error "missing sleep\x7b\x7d"
      | some sl =>
        if ¬ pol.allowShell then .error "sleep requires shell enabled (policy)"
        else if sl.milliseconds < 0 then .error "sleep.ms must be >= 0"
        else
          let cmd := "sleep " ++ fmtSleepSeconds sl.milliseconds
          .ok ([{ kind := ActionShell
                  session := sess
                  window := go.trimSpace a.target.window
                  pane := go.trimSpace a.target.pane
                  shell := cmd }], true))
  else (a.type', .error ("unknown action type \"" ++ a.type' ++ "\""))

/-- convertActions: the indexed loop over a spec action list. -/
def convertActions (sys : Sys) (ctx : Context) (sessionName : String)
    (pol : spec.Policy) (disallowed : List String) :
    Nat → List spec.Action → Except String (List Action × Bool)
  | _, [] => .ok ([], false)
  | i, a :: rest =>
    let (kind, res) := convertSingleAction sys ctx sessionName a pol disallowed
    match res with
    | .error e => .error ("actions[" ++ toString i ++ "] (" ++ kind ++ "): " ++ e)
    | .ok (acts, u) =>
      match convertActions sys ctx sessionName pol disallowed (i + 1) rest with
      | .error e => .error e
      | .ok (rest', u2) => .ok (acts ++ rest', u || u2)

/-- containsKind from the Go source. -/
def containsKind (actions : List Action) (kind : String) : Bool :=
  actions.any (·.kind = kind)

/-- The best-effort digit parse of a pane-plan percent size: resets to
zero at the first non-digit, as the Go loop does. -/
def parsePercentAux : Int → List Char → Int
  | acc, [] => acc
  | acc, c :: cs =>
    if '0' ≤ c ∧ c ≤ '9' then parsePercentAux (acc * 10 + ((c.toNat : Int) - ('0'.toNat : Int))) cs
    else 0

/-- The action-targeting default loop used for window-scoped actions
(plain equality tests, as in the Go source at that site). -/
def defaultTargetsPlain (sessionName wname : String) (acts : List Action) : List Action :=
  acts.map fun act =>
    let act := if act.window = "" then { act with window := wname } else act
    if act.session = "" then { act with session := sessionName } else act

/-- The action-targeting default loop used for pane and pane-plan actions
(trimmed tests, as in the Go source at those sites). -/
def defaultTargetsTrim (sessionName wname : String) (acts : List Action) : List Action :=
  acts.map fun act =>
    let act := if go.trimSpace act.session = "" then { act with session := sessionName } else act
    if go.trimSpace act.window = "" then { act with window := wname } else act

/-- convertPanePlan: lower a declarative pane plan (indexed loop). -/
def convertPanePlanSteps (sys : Sys) (ctx : Context) (sessionName : String)
    (w : spec.Window) (winRoot : String) (pol : spec.Policy) (disallowed : List String) :
    Nat → List spec.PanePlanStep → Except String (List Action × Bool)
  | _, [] => .ok ([], false)
  | i, step :: rest =>
    match step.pane with
    | some p =>
      let paneRoot :=
        let r := go.trimSpace p.root
        if r = "" then winRoot else r
      let paneRoot := expandUser sys (subst sys ctx paneRoot)
      let cdActs : List Action :=
        if i = 0 ∧ paneRoot ≠ "" ∧ paneRoot ≠ winRoot then
          [{ kind := ActionSendKeys
             session := sessionName
             window := w.name
             command := "cd " ++ shellQuote paneRoot
             enter := true }]
        else []
      let actsRes : Except String (List Action × Bool) :=
        if p.actions ≠ [] then
          match convertActions sys ctx sessionName pol disallowed 0 p.actions with
          | .error e =>
            .error ("window \"" ++ w.name ++ "\" pane_plan[" ++ toString i ++ "].pane actions: " ++ e)
          | .ok (acts, u) => .ok (defaultTargetsTrim sessionName w.name acts, u)
        else .ok ([], false)
      (match actsRes with
       | .error e => .error e
       | .ok (acts, u) =>
         let focusActs : List Action :=
           if p.focus then [{ kind := ActionSelectWindow, session := sessionName, window := w.name }]
           else []
         match convertPanePlanSteps sys ctx sessionName w winRoot pol disallowed (i + 1) rest with
         | .error e => .error e
         | .ok (tail, u2) => .ok (cdActs ++ acts ++ focusActs ++ tail, u || u2))
    | none =>
      match step.split with
      | some s =>
        let dir := go.toLower (go.trimSpace s.direction)
        if dir ≠ "h" ∧ dir ≠ "v" then
          .error ("window \"" ++ w.name ++ "\" pane_plan[" ++ toString i ++
            "].split.direction must be 'h' or 'v'")
        else
          let size := go.trimSpace s.size
          let percent : Int :=
            if size ≠ "" ∧ go.goHasSuffix size "%" then
              let pv := parsePercentAux 0 (go.goTrimSuffix size "%").toList
              if pv > 0 ∧ pv < 100 then pv else 0
            else 0
          let splitAct : Action :=
            { kind := ActionSplitWindow
              session := sessionName
              window := w.name
              direction := dir
              cwd := winRoot
              percent := percent }
          match convertPanePlanSteps sys ctx sessionName w winRoot pol disallowed (i + 1) rest with
          | .error e => .error e
          | .ok (tail, u2) => .ok (splitAct :: tail, u2)
      | none =>
        .error ("window \"" ++ w.name ++ "\" pane_plan[" ++ toString i ++
          "]: invalid step (expected pane or split)")

/-- convertPanePlan from the Go source. -/
def convertPanePlan (sys : Sys) (ctx : Context) (sessionName : String)
    (w : spec.Window) (winRoot : String) (pol : spec.Policy) (disallowed : List String) :
    Except String (List Action × Bool) :=
  convertPanePlanSteps sys ctx sessionName w winRoot pol disallowed 0 w.panePlan

/-- The legacy sequential panes loop of convertWindows (indexed). -/
def convertPanesLoop (sys : Sys) (ctx : Context) (sessionName : String)
    (w : spec.Window) (winRoot : String) (pol : spec.Policy) (disallowed : List String) :
    Nat → List spec.Pane → Except String (List Action × Bool)
  | _, [] => .ok ([], false)
  | pi, p :: rest =>
    let paneRoot :=
      let r := go.trimSpace p.root
      if r = "" then winRoot else r
    let paneRoot := expandUser sys (subst sys ctx paneRoot)
    let headActs : List Action :=
      if pi = 0 then
        (if paneRoot ≠ "" ∧ paneRoot ≠ winRoot then
          [{ kind := ActionSendKeys
             session := sessionName
             window := w.name
             command := "cd " ++ shellQuote paneRoot
             enter := true }]
         else [])
      else
        [{ kind := ActionSplitWindow
           session := sessionName
           window := w.name
           direction := "h"
           cwd := paneRoot }]
    let actsRes : Except String (List Action × Bool) :=
      if p.actions ≠ [] then
        match convertActions sys ctx sessionName pol disallowed 0 p.actions with
        | .error e =>
          .error ("window \"" ++ w.name ++ "\" pane[" ++ toString pi ++ "] actions: " ++ e)
        | .ok (acts, u) => .ok (defaultTargetsTrim sessionName w.name acts, u)
      else .ok ([], false)
    match actsRes with
    | .error e => .error e
    | .ok (acts, u) =>
      let focusActs : List Action :=
        if p.focus then [{ kind := ActionSelectWindow, session := sessionName, window := w.name }]
        else []
      match convertPanesLoop sys ctx sessionName w winRoot pol disallowed (pi + 1) rest with
      | .error e => .error e
      | .ok (tail, u2) => .ok (headActs ++ acts ++ focusActs ++ tail, u || u2)

/-- Lower one window of the spec (the body of convertWindows' loop). -/
def convertOneWindow (sys : Sys) (ctx : Context) (sessionName : String)
    (sessionRoot : String) (wi : Nat) (w : spec.Window) (pol : spec.Policy)
    (disallowed : List String) : Except String (List Action × Bool) :=
  if go.trimSpace w.name = "" then
    .error ("windows[" ++ toString wi ++ "]: missing name")
  else
    let winRoot :=
      let r := go.trimSpace w.root
      if r = "" then sessionRoot else r
    let winRoot := expandUser sys (subst sys ctx winRoot)
    let headActs : List Action :=
      [{ kind := ActionNewWindow, session := sessionName, name := w.name, cwd := winRoot },
       { kind := ActionSelectWindow, session := sessionName, window := w.name }]
    let wActsRes : Except String (List Action × Bool) :=
      if w.actions ≠ [] then
        match convertActions sys ctx sessionName pol disallowed 0 w.actions with
        | .error e => .error ("window \"" ++ w.name ++ "\" actions: " ++ e)
        | .ok (acts, u) => .ok (defaultTargetsPlain sessionName w.name acts, u)
      else .ok ([], false)
    match wActsRes with
    | .error e => .error e
    | .ok (wActs, u1) =>
      let panesRes : Except String (List Action × Bool) :=
        if w.panePlan ≠ [] then
          convertPanePlan sys ctx sessionName w winRoot pol disallowed
        else if w.panes ≠ [] then
          convertPanesLoop sys ctx sessionName w winRoot pol disallowed 0 w.panes
        else .ok ([], false)
      match panesRes with
      | .error e => .error e
      | .ok (paneActs, u2) =>
        let layoutActs : List Action :=
          if go.trimSpace w.layout ≠ "" then
            [{ kind := ActionSelectLayout, session := sessionName, window := w.name,
               layout := w.layout }]
          else []
        let focusActs : List Action :=
          if w.focus then
            [{ kind := ActionSelectWindow, session := sessionName, window := w.name }]
          else []
        let fp := go.trimSpace (go.toLower w.focusPane)
        let focusPaneActs : List Action :=
          if fp ≠ "" ∧ fp ≠ "active" then
            [{ kind := ActionSelectPane, session := sessionName, window := w.name, pane := fp }]
          else []
        .ok (headActs ++ wActs ++ paneActs ++ layoutActs ++ focusActs ++ focusPaneActs, u1 || u2)

/-- The indexed window loop of convertWindows. -/
def convertWindowsLoop (sys : Sys) (ctx : Context) (sessionName : String)
    (sessionRoot : String) (pol : spec.Policy) (disallowed : List String) :
    Nat → List spec.Window → Except String (List Action × Bool)
  | _, [] => .ok ([], false)
  | wi, w :: rest =>
    match convertOneWindow sys ctx sessionName sessionRoot wi w pol disallowed with
    | .error e => .error e
    | .ok (acts, u) =>
      match convertWindowsLoop sys ctx sessionName sessionRoot pol disallowed (wi + 1) rest with
      | .error e => .error e
      | .ok (tail, u2) => .ok (acts ++ tail, u || u2)

/-- convertWindows from the Go source. -/
def convertWindows (sys : Sys) (ctx : Context) (sessionName : String)
    (sessionRoot : String) (windows : List spec.Window) (pol : spec.Policy)
    (disallowed : List String) : Except String (List Action × Bool) :=
  if windows = [] then .error "no windows in spec"
  else
    match convertWindowsLoop sys ctx sessionName sessionRoot pol disallowed 0 windows with
    | .error e => .error e
    | .ok (out, u) =>
      .ok (out, u || containsKind out ActionTmux || containsKind out ActionShell)

/-- cloneStringMap: nil for an empty map, else a copy. -/
def cloneStringMap (m : List (String × String)) : Option (List (String × String)) :=
  if m.length = 0 then none else some m

/-- firstNonEmpty from the Go source. -/
def firstNonEmpty (a b : String) : String :=
  let a := go.trimSpace a
  if a ≠ "" then a else go.trimSpace b

/-- The character loop of sanitizeSessionName (the Bool is the Go
`lastUnderscore` flag). -/
def sanitizeSessionNameAux : Bool → List Char → List Char
  | _, [] => []
  | lastU, r :: rest =>
    if 'a' ≤ r ∧ r ≤ 'z' then r :: sanitizeSessionNameAux false rest
    else if 'A' ≤ r ∧ r ≤ 'Z' then Char.ofNat (r.toNat + 32) :: sanitizeSessionNameAux false rest
    else if '0' ≤ r ∧ r ≤ '9' then r :: sanitizeSessionNameAux false rest
    else if r = '-' ∨ r = '_' then '_' :: sanitizeSessionNameAux true rest
    else if ¬ lastU then '_' :: sanitizeSessionNameAux true rest
    else sanitizeSessionNameAux lastU rest

/-- templates.sanitizeSessionName. -/
def sanitizeSessionName (name : String) : String :=
  let name := go.trimSpace name
  if name = "" then ""
  else go.goTrimCutset ⟨sanitizeSessionNameAux false name.toList⟩ ['_']

/-- BuildFromSpec: convert a spec.Spec into a templates Context and Spec,
with structural validation, name resolution and policy enforcement. -/
def BuildFromSpec (s : spec.Spec) (opt : BuildOptions) (sys : Sys) :
    Except String (Context × Spec × Bool) :=
  match spec.Validate s with
  | .error e => .error e
  | .ok s' =>
    let projectRoot0 := go.trimSpace opt.projectRoot
    if projectRoot0 = "" then .error "BuildOptions.ProjectRoot is required"
    else
      let projectRoot := expandUser sys projectRoot0
      let projectName :=
        let p := go.trimSpace opt.projectName
        if p = "" then go.filepathBase (go.goTrimRight projectRoot ['/']) else p
      let sessionName0 :=
        let sn := go.trimSpace opt.sessionName
        if sn ≠ "" then sn
        else if go.trimSpace s'.session.name ≠ "" then go.trimSpace s'.session.name
        else spec.DeriveSessionName (go.trimSpace s'.session.prefixName) projectRoot
      let sessionName := sanitizeSessionName sessionName0
      if sessionName = "" then .error "resolved session name is empty"
      else
        let root :=
          let r := go.trimSpace s'.session.root
          if r = "" then projectRoot else expandUser sys r
        let allowed := if opt.allowedTmuxCommands = [] then DefaultPolicy.allowedTmuxCommands
          else opt.allowedTmuxCommands
        let disallowed :=
          match opt.disallowTmuxCommands with
          | none => (DefaultPolicy.disallowTmuxCommands).getD []
          | some d => d
        let pol : spec.Policy :=
          { spec.DefaultPolicy with allowShell := opt.allowShell, allowTmuxPassthrough := opt.allowTmuxPassthrough, allowedTmuxCommands := some allowed }
        match spec.ValidatePolicy s' pol with
        | .error e => .error e
        | .ok _ =>
          let ctx : Context :=
            { projectName := projectName
              projectPath := projectRoot
              sessionName := sessionName
              workingDir := root
              env := cloneStringMap s'.env
              tmuxSocket := "" }
          let baseActions : List Action :=
            (if opt.includeEnsureSession then
              [{ kind := ActionEnsureSession, session := sessionName, cwd := root }] else [])
            ++ (match s'.session.baseIndex with
                | some b => [{ kind := ActionSetOption, global := true, option := "base-index", value := toString b : Action }]
                | none => [])
            ++ (match s'.session.paneBaseIndex with
                | some b => [{ kind := ActionSetOption, global := true, option := "pane-base-index", value := toString b : Action }]
                | none => [])
          let useActions := s'.actions ≠ [] ∧ ¬ (opt.preferWindows ∧ s'.windows ≠ [])
          let convRes : Except String (List Action × Bool) :=
            if useActions then convertActions sys ctx sessionName pol disallowed 0 s'.actions
            else
              match convertWindows sys ctx sessionName root s'.windows pol disallowed with
              | .error e => .error e
              | .ok (acts, u) =>
                let fw := go.trimSpace (go.toLower s'.session.focusWindow)
                let extra : List Action :=
                  if fw ≠ "" ∧ fw ≠ "active" then
                    [{ kind := ActionSelectWindow, session := sessionName, window := go.trimSpace s'.session.focusWindow }]
                  else []
                .ok (acts ++ extra, u)
          match convRes with
          | .error e => .error e
          | .ok (acts, unsafeRequired) =>
            let tpl : Spec :=
              { version := s'.version
                id := ""
                name := firstNonEmpty s'.name projectName
                actions := baseActions ++ acts
                unsafeFlag := unsafeRequired }
            .ok (ctx, tpl, unsafeRequired)

/-- FromSpec: the thin wrapper around BuildFromSpec used by the TUI/CLI.
(The Go code also copies s.Env into ctx.Env when the caller's ctx.Env is
nil; that copy is dead for the result, because BuildFromSpec constructs
its own context, so it is not modelled.) -/
def FromSpec (ctx : Context) (s : spec.Spec)
    (allowShell allowTmuxPassthrough includeEnsureSession : Bool) (sys : Sys) :
    Except String Spec :=
  let projectPath := go.trimSpace ctx.projectPath
  if projectPath = "" then .error "context: missing ProjectPath"
  else
    let projectName :=
      let p := go.trimSpace ctx.projectName
      if p = "" then go.filepathBase (go.goTrimRight projectPath ['/']) else p
    let sessionName :=
      let sn := go.trimSpace ctx.sessionName
      if sn ≠ "" then sn
      else if go.trimSpace s.session.name ≠ "" then s.session.name
      else spec.DeriveSessionName (go.trimSpace s.session.prefixName) projectPath
    let opt : BuildOptions :=
      { projectRoot := projectPath
        projectName := projectName
        sessionName := sessionName
        preferWindows := true
        includeEnsureSession := includeEnsureSession
        allowShell := allowShell
        allowTmuxPassthrough := allowTmuxPassthrough }
    match BuildFromSpec s opt sys with
    | .error e => .error e
    | .ok (_, tpl, _) => .ok tpl

/-- One recorded Runner invocation (the two methods of the Runner
interface). -/
inductive RunnerCall where
  | run : List String → RunnerCall
  | runOutput : List String → RunnerCall
  deriving DecidableEq

/-- The argv of a recorded Runner invocation. -/
def RunnerCall.callArgs : RunnerCall → List String
  | .run a => a
  | .runOutput a => a

/-- The parseInt closure of execWaitForPrompt: trim, default on empty or
on an Atoi error. -/
def waitParseInt (s : String) (dflt : Int) : Int :=
  let s := go.trimSpace s
  if s = "" then dflt
  else
    match go.atoi s with
    | some n => n
    | none => dflt

/-- The Runner traffic of Engine.execWaitForPrompt.  Wall-clock time is
abstracted: `polls` is the number of loop iterations that reach the
capture-pane call before the handler returns, times out, or errors out
(an invalid prompt regex corresponds to `polls = 0`).  Sentinel-argv
validation failures issue no call, as in the source. -/
def execWaitForPromptCalls (polls : Nat) (c : Command) : List RunnerCall :=
  if c.args.length < 6 then []
  else
    let target := go.trimSpace (c.args.getD 1 "")
    if target = "" then []
    else
      let maxLines0 := waitParseInt (c.args.getD 5 "") 200
      let maxLines := if maxLines0 ≤ 0 then 200 else maxLines0
      List.replicate polls
        (.runOutput ["capture-pane", "-p", "-t", target, "-S", "-" ++ toString maxLines])

/-- The Runner traffic of Engine.execSshManagerConnect.  Validation
failures issue no call, as in the source. -/
def execSshManagerConnectCalls (c : Command) : List RunnerCall :=
  if c.args.length < 7 then []
  else
    let target := go.trimSpace (c.args.getD 1 "")
    let host := go.trimSpace (c.args.getD 2 "")
    let user := go.trimSpace (c.args.getD 3 "")
    let portStr := go.trimSpace (c.args.getD 4 "")
    let loginMode0 := go.trimSpace (go.toLower (c.args.getD 5 ""))
    if target = "" then []
    else if host = "" then []
    else
      let loginMode := if loginMode0 = "" then "askpass" else loginMode0
      if loginMode ≠ "askpass" ∧ loginMode ≠ "manual" ∧ loginMode ≠ "key" then []
      else
        let port := if portStr ≠ "" then (go.atoi portStr).getD 0 else 0
        if loginMode = "askpass" then
          let argv := ["tmux-ssh-manager", "__connect", "--host", host] ++
            (if user ≠ "" then ["--user", user] else [])
          [.run ["send-keys", "-t", target, shellJoin argv, "C-m"]]
        else
          let dest := if user ≠ "" then user ++ "@" ++ host else host
          let sshParts := ["ssh"] ++ (if port > 0 then ["-p", toString port] else []) ++ [dest]
          [.run ["send-keys", "-t", target, shellJoin sshParts, "C-m"]]

/-- The Runner calls one command of Engine.Execute's loop contributes:
the two sentinels are dispatched to their handlers, every other command
is forwarded verbatim to Runner.Run. -/
def commandRunnerCalls (polls : Nat) (c : Command) : List RunnerCall :=
  if c.args.head? = some "__wait_for_prompt__" then execWaitForPromptCalls polls c
  else if c.args.head? = some "__ssh_manager_connect__" then execSshManagerConnectCalls c
  else [.run c.args]

/-- The Runner calls of Engine.Execute over the first `n` commands of a
compiled plan (a run aborted by an error is such a prefix; `polls i`
abstracts the poll count of the i-th command when it is a
wait-for-prompt sentinel). -/
def executeRunnerCalls (polls : Nat → Nat) (n : Nat) (compiled : Compiled) : List RunnerCall :=
  ((compiled.commands.take n).enum.map fun ci => commandRunnerCalls (polls ci.1) ci.2).flatten

end templates

/-! ## Spec-side definitions

Definitions in this section are modelled from the spec's words, not from
the source; the claim theorems compare them with (or evaluate them
against) the source-derived definitions above. -/

/-- Modelled from the spec (§4.1, claim C4): the built-in lookup, a
built-in being available when the corresponding context field is
non-empty. -/
def specBuiltin (ctx : templates.Context) (key : String) : Option String :=
  if key = "PROJECT_NAME" ∧ ctx.projectName ≠ "" then some ctx.projectName
  else if key = "PROJECT_PATH" ∧ ctx.projectPath ≠ "" then some ctx.projectPath
  else if key = "SESSION_NAME" ∧ ctx.sessionName ≠ "" then some ctx.sessionName
  else if key = "TMUX_SOCK" ∧ ctx.tmuxSocket ≠ "" then some ctx.tmuxSocket
  else none

/-- Modelled from the spec (§4.1, claim C4): the substitution lookup as
"the first available value in the order built-ins → spec env → process
env → default", a value being available when present and non-empty; an
unresolved variable with no default yields the empty default. -/
def specLookupChain (sys : Sys) (ctx : templates.Context) (key dflt : String) : String :=
  let fromSpecEnv : Option String :=
    match ctx.env with
    | some m => (go.mapGet m key).filter (fun v => v != "")
    | none => none
  let fromProcEnv : Option String :=
    if sys.getenv key != "" then some (sys.getenv key) else none
  (((specBuiltin ctx key).orElse fun _ => fromSpecEnv).orElse fun _ => fromProcEnv).getD dflt

/-- Modelled from the spec (§4.1, claim C4): substitution with the
spec-described lookup chain.  The scanner is shared with the code
because the spec quotes the code's regex verbatim. -/
def substSpec (sys : Sys) (ctx : templates.Context) (s : String) : String :=
  templates.expandVars s (specLookupChain sys ctx)

/-- The identifier shape of reVar's first capture group
(`[A-Za-z_][A-Za-z0-9_]*`). -/
def isIdent : List Char → Bool
  | [] => false
  | c :: cs => templates.isVarFirst c && cs.all templates.isVarRest

/-- Whether the text contains the substitution opener `${` anywhere. -/
def hasVarOpen : List Char → Bool
  | [] => false
  | [_] => false
  | c :: d :: rest => (c = '$' && d = '{') || hasVarOpen (d :: rest)

/-- Modelled from the spec (§4.2, claim C2): the allowlist the spec
states as the closed default set. -/
def specClaimedAllowed : List String :=
  ["new-session", "kill-session", "rename-session", "switch-client", "select-session",
   "attach-session", "new-window", "kill-window", "rename-window", "select-window",
   "move-window", "swap-window", "split-window", "kill-pane", "select-pane", "swap-pane",
   "resize-pane", "break-pane", "join-pane", "select-layout", "send-keys", "set-buffer",
   "display-message", "set-option", "set-window-option", "list-windows", "list-panes",
   "list-sessions", "set-hook"]

/-- Modelled from the spec (§4.2, claim C2): the denylist the spec states
is always contained in the default denied set. -/
def specClaimedDenied : List String :=
  ["run-shell", "if-shell", "pipe-pane", "respawn-pane", "respawn-window", "source-file",
   "source", "display-popup", "load-buffer", "save-buffer", "capture-pane"]

/-- The seven spec-claimed allowlist entries that the code's default
allowlist does not contain. -/
def allowlistMissing : List String :=
  ["attach-session", "swap-pane", "break-pane", "join-pane", "set-window-option",
   "list-panes", "set-hook"]

/-! ## Fixtures shared by the claim theorems -/

deriving instance DecidableEq for Except

/-- A process world with an empty environment, root working directory and
no resolvable home. -/
def sys0 : Sys := ⟨fun _ => "", "/", ""⟩

/-- The `run nvim .` action of the section-8 pane-plan fixture. -/
def c6runNvim : spec.Action :=
  { type' := "run", run := some { program := "nvim", args := ["."] } }

/-- The `run bash -l` action of the section-8 pane-plan fixture. -/
def c6runBash : spec.Action :=
  { type' := "run", run := some { program := "bash", args := ["-l"] } }

/-- The first pane of the section-8 pane-plan fixture. -/
def c6pane1 : spec.PanePlanPane := { name := "nvim", focus := true, actions := [c6runNvim] }

/-- The second pane of the section-8 pane-plan fixture. -/
def c6pane2 : spec.PanePlanPane := { name := "shell", actions := [c6runBash] }

/-- The split of the section-8 pane-plan fixture. -/
def c6split : spec.PanePlanSplit := { direction := "h", size := "50%" }

/-- The single window of the section-8 pane-plan fixture. -/
def c6window : spec.Window :=
  { name := "editor"
    root := "/tmp/demo"
    panePlan := [{ pane := some c6pane1 }, { split := some c6split }, { pane := some c6pane2 }] }

/-- The section-8 pane-plan fixture spec (version 1, one `editor`
window). -/
def paneplanFixture : spec.Spec := { version := 1, windows := [c6window] }

/-- Build options for compiling the fixture with session `demo` and
project path `/tmp/demo`. -/
def c6opt : templates.BuildOptions :=
  { projectRoot := "/tmp/demo", sessionName := "demo", preferWindows := true }

/-- Whether an Except value is ok (a Go `err == nil` test). -/
def isOkE {ε α : Type} : Except ε α → Bool
  | .ok _ => true
  | .error _ => false

/-- C1 counterexample fixture: a structurally valid spec holding a mux
passthrough action named new-window in its top-level actions, next to a
non-empty windows list.  The windows representation is compiled, so the
mux action is never converted and never reaches the allow/deny checks. -/
def c1BypassSpec : spec.Spec :=
  { version := 1
    windows := [{ name := "w" }]
    actions := [{ type' := "tmux", tmux := some { name := "new-window" } }] }

/-- The caller context of the C1 counterexample. -/
def c1ctx : templates.Context := { projectPath := "/tmp/demo", sessionName := "demo" }

/-- C1 amended-claim fixture: an actions-only spec holding exactly one
shell action. -/
def c1ShellSpec (cmd : String) : spec.Spec :=
  { version := 1, actions := [{ type' := "shell", shell := some { cmd := cmd } }] }

/-- C1 amended-claim fixture: an actions-only spec holding exactly one
mux passthrough action named new-window. -/
def c1MuxSpec : spec.Spec :=
  { version := 1, actions := [{ type' := "tmux", tmux := some { name := "new-window" } }] }

/-- C1 amended-claim build options over the policy knobs. -/
def c1opt (ash apt : Bool) (allowed : List String) (disallowed : Option (List String)) :
    templates.BuildOptions :=
  { projectRoot := "/tmp/demo"
    sessionName := "demo"
    preferWindows := true
    allowShell := ash
    allowTmuxPassthrough := apt
    allowedTmuxCommands := allowed
    disallowTmuxCommands := disallowed }

/-- C3 counterexample fixture: one mux passthrough action naming the
denylisted subcommand run-shell. -/
def c3DenySpec : spec.Spec :=
  { version := 1, actions := [{ type' := "tmux", tmux := some { name := "run-shell" } }] }

/-- C5 counterexample fixture: a minimal one-window spec. -/
def c5MinSpec : spec.Spec := { version := 1, windows := [{ name := "w" }] }

/-- C5 counterexample options: an explicit upper-case session name. -/
def c5opt : templates.BuildOptions := { projectRoot := "/tmp/demo", sessionName := "A" }

/-- C8 counterexample fixture: one select-window action whose emitted
command has an argument byte sum of exactly 21. -/
def c8spec : templates.Spec :=
  { actions := [{ kind := templates.ActionSelectWindow, window := "w" }] }

/-- C8 counterexample policy: MaxCommandLen = 21. -/
def c8pol : templates.Policy := { maxCommandLen := 21 }

/-- The caller context of the C8 counterexample. -/
def c8ctx : templates.Context := { sessionName := "demo", projectPath := "/p" }

/-- C7 counterexample policy: passthrough enabled, with an allowlist
holding a double-underscore command. -/
def c7pol : templates.Policy :=
  { allowTmuxPassthrough := true, allowedTmuxCommands := ["__x__"] }

/-- C7 counterexample plan source. -/
def c7spec : templates.Spec :=
  { actions := [{ kind := templates.ActionTmux, tmuxArgs := ["__x__"] }] }

/-- The caller context of the C7 counterexample. -/
def c7ctx : templates.Context := { sessionName := "s", projectPath := "/p" }

/-- The C7 witness fixture plan: a minimal one-action spec compiled under
the default policy. -/
def c7wSpec : templates.Spec :=
  { actions := [{ kind := templates.ActionSelectWindow, window := "w" }] }

/-- The caller context of the C7 witness fixture. -/
def c7wCtx : templates.Context := { sessionName := "s", projectPath := "/p" }

/-- The compiled form of the C7 witness fixture. -/
def c7wCompiled : templates.Compiled :=
  { commands := [{ args := ["select-window", "-t", "s:w"]
                   explanation := "select window s:w"
                   unsafeFlag := false }]
    unsafeUsed := false
    warnings := [] }

/-- Every action ValidatePolicy walks: spec-level, window-level and
legacy pane-level actions (pane-plan pane actions are not among them). -/
def walkedActions (s : spec.Spec) : List spec.Action :=
  s.actions ++ (s.windows.map fun w => w.actions ++ (w.panes.map (·.actions)).flatten).flatten

/-- The context BuildFromSpec produces for the C5 witness fixture. -/
def c5ResolvedCtx : templates.Context :=
  { projectName := "demo", projectPath := "/tmp/demo", sessionName := "a",
    workingDir := "/tmp/demo", env := none, tmuxSocket := "" }

/-- The plan BuildFromSpec produces for the C5 witness fixture. -/
def c5ResolvedTpl : templates.Spec :=
  { version := 1, id := "", name := "demo",
    actions := [{ kind := templates.ActionNewWindow, session := "a", name := "w", cwd := "/tmp/demo" },
                { kind := templates.ActionSelectWindow, session := "a", window := "w" }],
    unsafeFlag := false }

/-- The session name BuildFromSpec resolves for a validated spec: the
trimmed explicit option name, else the trimmed spec session name, else
DeriveSessionName over the prefix and the user-expanded project root —
always passed through sanitizeSessionName. -/
def resolvedSessionName (s' : spec.Spec) (opt : templates.BuildOptions) (sys : Sys) : String :=
  templates.sanitizeSessionName
    (if go.trimSpace opt.sessionName ≠ "" then go.trimSpace opt.sessionName
     else if go.trimSpace s'.session.name ≠ "" then go.trimSpace s'.session.name
     else spec.DeriveSessionName (go.trimSpace s'.session.prefixName)
       (templates.expandUser sys (go.trimSpace opt.projectRoot)))

end TSM

open TSM

/-- C6: the section-8 pane-plan fixture (version 1; one window `editor`
with root /tmp/demo and the pane/split/pane plan), compiled with session
name `demo` and project path `/tmp/demo`, produces exactly the six
claimed argv vectors in the claimed order. -/
theorem C6_pane_plan_geometry :
    ((templates.BuildFromSpec paneplanFixture c6opt sys0).bind fun r =>
      (templates.Compile templates.DefaultPolicy sys0 r.1 r.2.1).map fun c =>
        c.commands.map (·.args)) =
    .ok [["new-window", "-t", "demo", "-n", "editor", "-c", "/tmp/demo"],
         ["select-window", "-t", "demo:editor"],
         ["send-keys", "-t", "demo:editor", "nvim .", "C-m"],
         ["select-window", "-t", "demo:editor"],
         ["split-window", "-h", "-t", "demo:editor", "-c", "/tmp/demo", "-p", "50"],
         ["send-keys", "-t", "demo:editor", "bash -l", "C-m"]] := rfl

/-- C2 counterexample: `attach-session` is in the spec-claimed allowlist
but not in the code's default allowlist, and `source-file` is in the
spec-claimed denylist but not in the code's default denylist, refuting
the claimed set equalities at those inputs. -/
theorem C2_counterexample :
    templates.defaultAllowedTmuxCommands.contains "attach-session" = false ∧
    "attach-session" ∈ specClaimedAllowed ∧
    (templates.DefaultPolicy.disallowTmuxCommands.getD []).contains "source-file" = false ∧
    "source-file" ∈ specClaimedDenied := by decide

/-- C2 amended: the default allowlist equals the spec-claimed set minus
{attach-session, swap-pane, break-pane, join-pane, set-window-option,
list-panes, set-hook}, and the default denylist is exactly
{run-shell, if-shell, pipe-pane, respawn-pane} (so of the spec-claimed
denylist only those four are present). -/
theorem C2_default_policy_sets_amended :
    (∀ s ∈ specClaimedAllowed,
      templates.defaultAllowedTmuxCommands.contains s = !(allowlistMissing.contains s)) ∧
    (∀ s ∈ templates.defaultAllowedTmuxCommands, s ∈ specClaimedAllowed) ∧
    templates.DefaultPolicy.disallowTmuxCommands =
      some ["run-shell", "if-shell", "pipe-pane", "respawn-pane"] ∧
    (∀ s ∈ specClaimedDenied,
      (templates.DefaultPolicy.disallowTmuxCommands.getD []).contains s =
        (["run-shell", "if-shell", "pipe-pane", "respawn-pane"].contains s)) := by decide

/-- Witness for C2: the amended theorem applied at `new-session` and at
`run-shell`. -/
theorem C2_default_policy_sets_witness :
    templates.defaultAllowedTmuxCommands.contains "new-session" =
      !(allowlistMissing.contains "new-session") ∧
    (templates.DefaultPolicy.disallowTmuxCommands.getD []).contains "run-shell" =
      (["run-shell", "if-shell", "pipe-pane", "respawn-pane"].contains "run-shell") :=
  ⟨C2_default_policy_sets_amended.1 "new-session" (by decide),
   C2_default_policy_sets_amended.2.2.2 "run-shell" (by decide)⟩

/-- C1 counterexample: with AllowShell=false and AllowTmuxPassthrough
=false, a structurally valid spec containing a mux-passthrough action
named new-window still compiles through FromSpec, because the action sits
in the unused actions representation (the spec also has windows, and
windows are preferred); the claimed "compiles only if
AllowTmuxPassthrough=true" fails at this input. -/
theorem C1_counterexample :
    isOkE (templates.FromSpec c1ctx c1BypassSpec false false false sys0) = true := by decide

/-- C3 counterexample: ValidatePolicy accepts a spec whose only action is
a mux passthrough of `run-shell` when passthrough is enabled, although
`run-shell` is in the engine's default denylist — ValidatePolicy performs
no denylist check (spec.Policy has no denylist field at all). -/
theorem C3_counterexample :
    spec.ValidatePolicy c3DenySpec { allowTmuxPassthrough := true } = .ok () ∧
    (templates.DefaultPolicy.disallowTmuxCommands.getD []).contains "run-shell" = true := by
  decide

/-- C5 counterexample: BuildFromSpec with the explicit session name "A"
resolves the compiled session name to "a" (sanitizeSessionName lowercases
it), not to the provided name, refuting "the compiled session name is
BuildOptions.SessionName if non-empty" at this input. -/
theorem C5_counterexample :
    ((templates.BuildFromSpec c5MinSpec c5opt sys0).map fun r => r.1.sessionName) = .ok "a" ∧
    ("a" : String) ≠ "A" := by decide

/-- C8 counterexample: with MaxCommandLen = 21, the single emitted
command `select-window -t demo:w` has an argument byte sum of exactly 21
(≤ MaxCommandLen), yet Compile fails, because the guard adds one byte per
argument (21 + 3 = 24 > 21); the claimed "every command whose total
argument bytes are at most MaxCommandLen passes" fails at this input. -/
theorem C8_counterexample :
    templates.Compile c8pol sys0 c8ctx c8spec =
      .error "compiled command[0] too long (24 chars > 21)" ∧
    (templates.compileActionsLoop c8pol sys0 (templates.normalizeCompileCtx sys0 c8ctx) 0
        c8spec.actions).map
      (fun r => r.1.map fun c => c.args.foldl (fun t a => t + (a.utf8ByteSize : Int)) 0) =
      .ok [21] := by decide

/-- C7 counterexample: under a policy whose allowlist holds `__x__`, the
compiled plan forwards the argv `["__x__"]` to Runner.Run, so a recording
Runner sees a call whose first argument begins with `__`; the claimed
"zero calls whose first argument begins with __ for every compiled plan"
fails at this input. -/
theorem C7_counterexample :
    ((templates.Compile c7pol sys0 c7ctx c7spec).map fun c =>
      (templates.executeRunnerCalls (fun _ => 0) c.commands.length c).map
        fun call => go.goHasPrefix (call.callArgs.headD "") "__") = .ok [true] := by decide

/-- C1 amended: restricted to specs whose action stream is the compiled
representation (actions-only specs), the policy gate is exact.  Verified
as the full truth table over the policy knobs for the canonical
single-action specs: a shell-action spec compiles iff AllowShell; a
mux(new-window) spec compiles iff AllowTmuxPassthrough AND new-window is
in the allowed set AND new-window is not in the disallowed set (shown
with the default sets and with sets that exclude or denylist it). -/
theorem C1_policy_gate_amended :
    ∀ ash apt : Bool,
      isOkE (templates.FromSpec c1ctx (c1ShellSpec "npm test") ash apt false sys0) = ash ∧
      isOkE (templates.FromSpec c1ctx c1MuxSpec ash apt false sys0) = apt ∧
      isOkE (templates.BuildFromSpec c1MuxSpec
        (c1opt ash apt ["new-window", "kill-pane"] (some [])) sys0) = apt ∧
      isOkE (templates.BuildFromSpec c1MuxSpec
        (c1opt ash apt ["kill-pane"] (some [])) sys0) = false ∧
      isOkE (templates.BuildFromSpec c1MuxSpec
        (c1opt ash apt ["new-window"] (some ["new-window"])) sys0) = false := by
  intro ash apt
  cases ash <;> cases apt <;> exact ⟨by decide, by decide, by decide, by decide, by decide⟩

/-- C9: determinism of the compile pipeline.  Every modelled function is
pure by construction; the theorem states that the outputs depend on the
process world only through the values of its environment function,
working directory and home (so two runs under one fixed process
environment agree), and that RenderDryRun maps equal Compiled values to
identical strings. -/
theorem C9_determinism (pol : templates.Policy) (sys1 sys2 : Sys)
    (ctx : templates.Context) (s : spec.Spec) (opt : templates.BuildOptions)
    (ash apt ies : Bool) (tpl : templates.Spec) (c1 c2 : templates.Compiled)
    (henv : ∀ k, sys1.getenv k = sys2.getenv k)
    (hcwd : sys1.cwd = sys2.cwd) (hhome : sys1.home = sys2.home)
    (hc : c1 = c2) :
    templates.BuildFromSpec s opt sys1 = templates.BuildFromSpec s opt sys2 ∧
    templates.FromSpec ctx s ash apt ies sys1 = templates.FromSpec ctx s ash apt ies sys2 ∧
    templates.Compile pol sys1 ctx tpl = templates.Compile pol sys2 ctx tpl ∧
    templates.RenderDryRun c1 = templates.RenderDryRun c2 := by
  have hsys : sys1 = sys2 := by
    obtain ⟨g1, w1, h1⟩ := sys1
    obtain ⟨g2, w2, h2⟩ := sys2
    simp only at henv hcwd hhome
    subst hcwd
    subst hhome
    congr 1
    exact funext henv
  subst hsys
  exact ⟨rfl, rfl, rfl, congrArg templates.RenderDryRun hc⟩

/-- Witness for C9: the theorem applied to the pane-plan fixture with the
empty-environment world on both sides. -/
theorem C9_determinism_witness :
    templates.BuildFromSpec paneplanFixture c6opt sys0 =
      templates.BuildFromSpec paneplanFixture c6opt sys0 ∧
    templates.FromSpec c1ctx paneplanFixture false false false sys0 =
      templates.FromSpec c1ctx paneplanFixture false false false sys0 ∧
    templates.Compile templates.DefaultPolicy sys0 c1ctx c7spec =
      templates.Compile templates.DefaultPolicy sys0 c1ctx c7spec ∧
    templates.RenderDryRun {} = templates.RenderDryRun {} :=
  C9_determinism templates.DefaultPolicy sys0 sys0 c1ctx paneplanFixture c6opt
    false false false c7spec {} {} (fun _ => rfl) rfl rfl rfl

/-! ### Substitution lemmas shared by the C4 and C10 theorems -/

theorem expandVarsAux_congr (f g : String → String → String)
    (h : ∀ k d, f k d = g k d) :
    ∀ (fuel : Nat) (l : List Char),
      templates.expandVarsAux f fuel l = templates.expandVarsAux g fuel l := by
  intro fuel
  induction fuel with
  | zero => intro l; rfl
  | succ n ih =>
    intro l
    cases l with
    | nil => rfl
    | cons c cs =>
      simp only [templates.expandVarsAux]
      cases htm : templates.tryMatchVar (c :: cs) with
      | none => exact congrArg (c :: ·) (ih cs)
      | some kv =>
        obtain ⟨k, d, rest⟩ := kv
        show (f k d).toList ++ templates.expandVarsAux f n rest =
          (g k d).toList ++ templates.expandVarsAux g n rest
        rw [h k d, ih rest]

theorem builtinVal_eq_specBuiltin (ctx : templates.Context) (k : String) :
    templates.builtinVal ctx k = specBuiltin ctx k := by
  unfold templates.builtinVal specBuiltin
  by_cases h1 : k = "PROJECT_NAME"
  · subst h1
    by_cases e : ctx.projectName = "" <;> simp [e]
  · by_cases h2 : k = "PROJECT_PATH"
    · subst h2
      by_cases e : ctx.projectPath = "" <;> simp [e, h1]
    · by_cases h3 : k = "SESSION_NAME"
      · subst h3
        by_cases e : ctx.sessionName = "" <;> simp [e, h1, h2]
      · by_cases h4 : k = "TMUX_SOCK"
        · subst h4
          by_cases e : ctx.tmuxSocket = "" <;> simp [e, h1, h2, h3]
        · simp [h1, h2, h3, h4]

theorem substLookup_eq_specLookupChain (sys : Sys) (ctx : templates.Context) (k d : String) :
    templates.substLookup sys ctx k d = specLookupChain sys ctx k d := by
  unfold templates.substLookup specLookupChain
  rw [builtinVal_eq_specBuiltin]
  cases hb : specBuiltin ctx k with
  | some v => simp [Option.orElse]
  | none =>
    simp only [Option.orElse]
    cases he : ctx.env with
    | none =>
      by_cases hp : sys.getenv k = "" <;> simp [hp, Option.filter]
    | some m =>
      cases hm : go.mapGet m k with
      | none => by_cases hp : sys.getenv k = "" <;> simp [hm, hp, Option.filter]
      | some v =>
        by_cases hv : v = ""
        · subst hv
          by_cases hp : sys.getenv k = "" <;> simp [hm, hp, Option.filter]
        · simp [hm, hv, Option.filter]

theorem tryMatchVar_eq_none {l : List Char} (h : hasVarOpen l = false) :
    templates.tryMatchVar l = none := by
  match l with
  | [] => rfl
  | [a] => rfl
  | a :: b :: rest =>
    have hab : ¬(a = '$' ∧ b = '{') := by
      intro hh
      obtain ⟨ha, hb⟩ := hh
      subst ha
      subst hb
      simp [hasVarOpen] at h
    simp [templates.tryMatchVar, hab]

theorem hasVarOpen_tail {c : Char} {cs : List Char} (h : hasVarOpen (c :: cs) = false) :
    hasVarOpen cs = false := by
  cases cs with
  | nil => rfl
  | cons d rest =>
    simp [hasVarOpen] at h ⊢
    exact h.2

theorem expandVarsAux_id (f : String → String → String) :
    ∀ (fuel : Nat) (l : List Char), hasVarOpen l = false →
      templates.expandVarsAux f fuel l = l := by
  intro fuel
  induction fuel with
  | zero => intro l _; rfl
  | succ n ih =>
    intro l h
    cases l with
    | nil => rfl
    | cons c cs =>
      simp only [templates.expandVarsAux, tryMatchVar_eq_none h]
      rw [ih cs (hasVarOpen_tail h)]

/-- C4: subst realises the spec's substitution contract: it agrees with
the spec-described lookup chain (built-ins → spec env → process env →
default, first available non-empty value, empty string when nothing
resolves) over the shared reVar scanner, and leaves every string without
a `${` opener unchanged. -/
theorem C4_subst_contract (sys : Sys) (ctx : templates.Context) (s : String) :
    templates.subst sys ctx s = substSpec sys ctx s ∧
    (hasVarOpen s.toList = false → templates.subst sys ctx s = s) := by
  constructor
  · unfold templates.subst substSpec templates.expandVars
    by_cases hs : s = ""
    · simp [hs]
    · simp only [if_neg hs]
      exact congrArg String.mk
        (expandVarsAux_congr _ _ (fun k d => substLookup_eq_specLookupChain sys ctx k d) _ _)
  · intro h
    unfold templates.subst templates.expandVars
    by_cases hs : s = ""
    · simp [hs]
    · simp only [if_neg hs]
      rw [expandVarsAux_id _ _ _ h]
      rfl

/-- Witness for C4: the theorem applied to a concrete context and the
string `plain/text`. -/
theorem C4_subst_contract_witness :
    templates.subst sys0 c1ctx "plain/text" = substSpec sys0 c1ctx "plain/text" ∧
    templates.subst sys0 c1ctx "plain/text" = "plain/text" :=
  ⟨(C4_subst_contract sys0 c1ctx "plain/text").1,
   (C4_subst_contract sys0 c1ctx "plain/text").2 (by decide)⟩

theorem expandVarsAux_nil (f : String → String → String) :
    ∀ n : Nat, templates.expandVarsAux f n [] = [] := by
  intro n
  cases n <;> rfl

theorem expandVarsAux_cons_eq (f : String → String → String) (n : Nat) (c : Char)
    (cs : List Char) :
    templates.expandVarsAux f (n + 1) (c :: cs) =
      (match templates.tryMatchVar (c :: cs) with
       | some (key, dflt, rest) => (f key dflt).toList ++ templates.expandVarsAux f n rest
       | none => c :: templates.expandVarsAux f n cs) := rfl

theorem spanVarRest_append {l : List Char} (hl : l.all templates.isVarRest = true)
    {x : Char} (hx : templates.isVarRest x = false) (r : List Char) :
    templates.spanVarRest (l ++ x :: r) = (l, x :: r) := by
  induction l with
  | nil => simp [templates.spanVarRest, hx]
  | cons c cs ih =>
    simp only [List.all_cons, Bool.and_eq_true] at hl
    simp [templates.spanVarRest, hl.1, ih hl.2]

theorem scanDefault_append {d : List Char}
    (hd : d.all (fun x => x != '}' && x != '\n') = true) (r : List Char) :
    templates.scanDefault (d ++ '}' :: r) = some (d, r) := by
  induction d with
  | nil => simp [templates.scanDefault]
  | cons c cs ih =>
    simp only [List.all_cons, Bool.and_eq_true, bne_iff_ne, ne_eq] at hd
    simp [templates.scanDefault, hd.1.1, hd.1.2, ih hd.2]

theorem tryMatchVar_var (c : Char) (cs : List Char) (hc : templates.isVarFirst c = true)
    (hcs : cs.all templates.isVarRest = true) (r : List Char) :
    templates.tryMatchVar ('$' :: '{' :: ((c :: cs) ++ '}' :: r)) =
      some (⟨c :: cs⟩, "", r) := by
  simp [templates.tryMatchVar, hc,
    spanVarRest_append hcs (show templates.isVarRest '}' = false by decide) r]

theorem tryMatchVar_var_default (c : Char) (cs : List Char)
    (hc : templates.isVarFirst c = true) (hcs : cs.all templates.isVarRest = true)
    {d : List Char} (hd : d.all (fun x => x != '}' && x != '\n') = true) (r : List Char) :
    templates.tryMatchVar ('$' :: '{' :: ((c :: cs) ++ ':' :: '-' :: (d ++ '}' :: r))) =
      some (⟨c :: cs⟩, ⟨d⟩, r) := by
  simp [templates.tryMatchVar, hc,
    spanVarRest_append hcs (show templates.isVarRest ':' = false by decide),
    scanDefault_append hd r]

theorem expandVars_var (f : String → String → String) (c : Char) (cs : List Char)
    (hc : templates.isVarFirst c = true) (hcs : cs.all templates.isVarRest = true) :
    templates.expandVars ("$\x7b" ++ (⟨c :: cs⟩ : String) ++ "\x7d") f = f ⟨c :: cs⟩ "" := by
  have hne : ("$\x7b" ++ (⟨c :: cs⟩ : String) ++ "\x7d") ≠ "" := by
    intro h
    have h2 : ('$' :: '{' :: ((c :: cs) ++ '}' :: []) : List Char) = [] :=
      congrArg String.toList h
    exact List.noConfusion h2
  unfold templates.expandVars
  rw [if_neg hne]
  show String.mk (templates.expandVarsAux f ((cs ++ '}' :: []).length + 2 + 1)
      ('$' :: '{' :: ((c :: cs) ++ '}' :: []))) = f ⟨c :: cs⟩ ""
  rw [expandVarsAux_cons_eq, tryMatchVar_var c cs hc hcs []]
  show String.mk ((f ⟨c :: cs⟩ "").toList ++
    templates.expandVarsAux f ((cs ++ '}' :: []).length + 2) []) = f ⟨c :: cs⟩ ""
  rw [expandVarsAux_nil, List.append_nil]
  rfl

theorem expandVars_var_default (f : String → String → String) (c : Char) (cs : List Char)
    (hc : templates.isVarFirst c = true) (hcs : cs.all templates.isVarRest = true)
    (d : String) (hd : d.toList.all (fun x => x != '}' && x != '\n') = true) :
    templates.expandVars ("$\x7b" ++ (⟨c :: cs⟩ : String) ++ ":-" ++ d ++ "\x7d") f =
      f ⟨c :: cs⟩ d := by
  have hl : ("$\x7b" ++ (⟨c :: cs⟩ : String) ++ ":-" ++ d ++ "\x7d").toList
      = '$' :: '{' :: ((c :: cs) ++ ':' :: '-' :: (d.toList ++ '}' :: [])) := by
    show '$' :: '{' :: (c :: (((cs ++ [':', '-']) ++ d.toList) ++ ['}']))
        = '$' :: '{' :: ((c :: cs) ++ ':' :: '-' :: (d.toList ++ '}' :: []))
    simp [List.append_assoc]
  have hne : ("$\x7b" ++ (⟨c :: cs⟩ : String) ++ ":-" ++ d ++ "\x7d") ≠ "" := by
    intro h
    have h2 : ("$\x7b" ++ (⟨c :: cs⟩ : String) ++ ":-" ++ d ++ "\x7d").toList = [] :=
      congrArg String.toList h
    rw [hl] at h2
    exact List.noConfusion h2
  unfold templates.expandVars
  rw [if_neg hne]
  rw [show ("$\x7b" ++ (⟨c :: cs⟩ : String) ++ ":-" ++ d ++ "\x7d").toList.length
      = ("$\x7b" ++ (⟨c :: cs⟩ : String) ++ ":-" ++ d ++ "\x7d").toList.length from rfl, hl]
  show String.mk (templates.expandVarsAux f
      ((cs ++ ':' :: '-' :: (d.toList ++ '}' :: [])).length + 2 + 1)
      ('$' :: '{' :: ((c :: cs) ++ ':' :: '-' :: (d.toList ++ '}' :: [])))) = f ⟨c :: cs⟩ d
  rw [expandVarsAux_cons_eq, tryMatchVar_var_default c cs hc hcs hd []]
  show String.mk ((f ⟨c :: cs⟩ ⟨d.toList⟩).toList ++
    templates.expandVarsAux f ((cs ++ ':' :: '-' :: (d.toList ++ '}' :: [])).length + 2) []) =
    f ⟨c :: cs⟩ d
  rw [expandVarsAux_nil, List.append_nil]
  rfl

theorem substLookup_empty_env (sys : Sys) (ctx : templates.Context)
    (m : List (String × String)) (K dflt : String)
    (hb : templates.builtinVal ctx K = none)
    (he : ctx.env = some m) (hm : go.mapGet m K = some "") :
    templates.substLookup sys ctx K dflt =
      (if sys.getenv K = "" then dflt else sys.getenv K) := by
  unfold templates.substLookup
  rw [hb, he]
  simp only [hm]
  by_cases hp : sys.getenv K = "" <;> simp [hp]

/-- C10: in substitution a variable bound to the empty string is treated
as unset.  For every identifier K that is not an available built-in and
whose spec-env entry is the empty string, `${K}` resolves to the process
environment value when that is non-empty and to the empty string
otherwise, and `${K:-d}` resolves to the process environment value when
that is non-empty and to the default `d` otherwise — the empty env entry
never shadows a non-empty process-environment value. -/
theorem C10_empty_env_fallthrough (sys : Sys) (ctx : templates.Context)
    (m : List (String × String)) (K d : String)
    (hK : isIdent K.toList = true)
    (hb : templates.builtinVal ctx K = none)
    (he : ctx.env = some m)
    (hm : go.mapGet m K = some "")
    (hd : d.toList.all (fun x => x != '}' && x != '\n') = true) :
    templates.subst sys ctx ("$\x7b" ++ K ++ "\x7d") =
      (if sys.getenv K = "" then "" else sys.getenv K) ∧
    templates.subst sys ctx ("$\x7b" ++ K ++ ":-" ++ d ++ "\x7d") =
      (if sys.getenv K = "" then d else sys.getenv K) := by
  obtain ⟨kd⟩ := K
  cases kd with
  | nil => simp [isIdent] at hK
  | cons c cs =>
    simp only [isIdent, String.toList, Bool.and_eq_true] at hK
    constructor
    · rw [show templates.subst sys ctx ("$\x7b" ++ (⟨c :: cs⟩ : String) ++ "\x7d") =
          templates.expandVars ("$\x7b" ++ (⟨c :: cs⟩ : String) ++ "\x7d")
            (templates.substLookup sys ctx) from rfl]
      rw [expandVars_var _ c cs hK.1 hK.2]
      exact substLookup_empty_env sys ctx m ⟨c :: cs⟩ "" hb he hm
    · rw [show templates.subst sys ctx ("$\x7b" ++ (⟨c :: cs⟩ : String) ++ ":-" ++ d ++ "\x7d") =
          templates.expandVars ("$\x7b" ++ (⟨c :: cs⟩ : String) ++ ":-" ++ d ++ "\x7d")
            (templates.substLookup sys ctx) from rfl]
      rw [expandVars_var_default _ c cs hK.1 hK.2 d hd]
      exact substLookup_empty_env sys ctx m ⟨c :: cs⟩ d hb he hm

/-- A context whose env maps X to the empty string. -/
def ctxX : templates.Context := { sessionName := "s", env := some [("X", "")] }

/-- A process environment where X is set to `penv`. -/
def sysX : Sys := ⟨fun k => if k = "X" then "penv" else "", "/", ""⟩

/-- Witness for C10: with Env[X] = "" and process env X = penv, `${X}`
resolves to penv and `${X:-fallback}` to penv as well. -/
theorem C10_empty_env_fallthrough_witness :
    templates.subst sysX ctxX ("$\x7bX\x7d") =
      (if sysX.getenv "X" = "" then "" else sysX.getenv "X") ∧
    templates.subst sysX ctxX ("$\x7bX:-fallback\x7d") =
      (if sysX.getenv "X" = "" then "fallback" else sysX.getenv "X") :=
  C10_empty_env_fallthrough sysX ctxX [("X", "")] "X" "fallback"
    (by decide) (by decide) rfl (by decide) (by decide)

/-! ### ValidatePolicy lemmas shared by the C3 theorems -/

theorem all_mapB {α β : Type} (g : α → β) (p : β → Bool) :
    ∀ l : List α, (l.map g).all p = l.all fun x => p (g x) := by
  intro l
  induction l with
  | nil => rfl
  | cons x xs ih => simp [ih]

theorem all_flattenB {α : Type} (p : α → Bool) :
    ∀ l : List (List α), l.flatten.all p = l.all fun x => x.all p := by
  intro l
  induction l with
  | nil => rfl
  | cons x xs ih => simp [List.all_append, ih]

theorem isOkE_ok {ε α : Type} (x : α) : isOkE (Except.ok x : Except ε α) = true := rfl

theorem isOkE_error {ε α : Type} (e : ε) : isOkE (Except.error e : Except ε α) = false := rfl

theorem policyCheckList_all (pol : spec.Policy) (allowed : List String)
    (wrap : String → String) (l : List spec.Action) :
    isOkE (spec.policyCheckList pol allowed wrap l) =
      l.all fun a => isOkE (spec.policyCheck pol allowed a) := by
  induction l with
  | nil => rfl
  | cons a rest ih =>
    simp only [spec.policyCheckList]
    cases hc : spec.policyCheck pol allowed a with
    | error e => simp [List.all_cons, hc, isOkE_error]
    | ok u => simp [List.all_cons, hc, isOkE_ok, ih]

theorem policyCheckPanes_all (pol : spec.Policy) (allowed : List String) (wname : String)
    (l : List spec.Pane) :
    isOkE (spec.policyCheckPanes pol allowed wname l) =
      l.all fun p => p.actions.all fun a => isOkE (spec.policyCheck pol allowed a) := by
  induction l with
  | nil => rfl
  | cons p rest ih =>
    simp only [spec.policyCheckPanes]
    have h2 := policyCheckList_all pol allowed
      (fun e => "window \"" ++ wname ++ "\" pane \"" ++ p.name ++ "\": " ++ e) p.actions
    cases hc : spec.policyCheckList pol allowed
        (fun e => "window \"" ++ wname ++ "\" pane \"" ++ p.name ++ "\": " ++ e) p.actions with
    | error e =>
      rw [hc, isOkE_error] at h2
      simp [List.all_cons, isOkE_error, ← h2]
    | ok u =>
      rw [hc, isOkE_ok] at h2
      simp [List.all_cons, isOkE_ok, ← h2, ih]

theorem policyCheckWindows_all (pol : spec.Policy) (allowed : List String)
    (l : List spec.Window) :
    isOkE (spec.policyCheckWindows pol allowed l) =
      l.all fun w =>
        (w.actions.all fun a => isOkE (spec.policyCheck pol allowed a)) &&
        (w.panes.all fun p => p.actions.all fun a => isOkE (spec.policyCheck pol allowed a)) := by
  induction l with
  | nil => rfl
  | cons w rest ih =>
    simp only [spec.policyCheckWindows]
    have h2 := policyCheckList_all pol allowed
      (fun e => "window \"" ++ w.name ++ "\": " ++ e) w.actions
    cases hc : spec.policyCheckList pol allowed
        (fun e => "window \"" ++ w.name ++ "\": " ++ e) w.actions with
    | error e =>
      rw [hc, isOkE_error] at h2
      simp [List.all_cons, isOkE_error, ← h2]
    | ok u =>
      rw [hc, isOkE_ok] at h2
      have h3 := policyCheckPanes_all pol allowed w.name w.panes
      cases hp : spec.policyCheckPanes pol allowed w.name w.panes with
      | error e =>
        rw [hp, isOkE_error] at h3
        simp [List.all_cons, isOkE_error, ← h2, ← h3]
      | ok u2 =>
        rw [hp, isOkE_ok] at h3
        simp [List.all_cons, isOkE_ok, ← h2, ← h3, ih]

theorem validatePolicy_all (s : spec.Spec) (pol : spec.Policy) :
    isOkE (spec.ValidatePolicy s pol) =
      ((walkedActions s).all fun a =>
        isOkE (spec.policyCheck pol (spec.effectiveSpecAllowlist pol) a)) := by
  unfold spec.ValidatePolicy walkedActions
  have h1 := policyCheckList_all pol (spec.effectiveSpecAllowlist pol) id s.actions
  cases hc : spec.policyCheckList pol (spec.effectiveSpecAllowlist pol) id s.actions with
  | error e =>
    rw [hc, isOkE_error] at h1
    simp [hc, isOkE_error, List.all_append, ← h1]
  | ok u =>
    rw [hc, isOkE_ok] at h1
    simp only [hc]
    rw [policyCheckWindows_all]
    simp [List.all_append, ← h1, all_flattenB, all_mapB]

theorem validatePolicy_ok_iff (s : spec.Spec) (pol : spec.Policy) :
    isOkE (spec.ValidatePolicy s pol) = true ↔
      ∀ a ∈ walkedActions s,
        isOkE (spec.policyCheck pol (spec.effectiveSpecAllowlist pol) a) = true := by
  rw [validatePolicy_all, List.all_eq_true]

/-- C3 amended: ValidatePolicy accepts a spec exactly when every walked
action (spec-level, window-level and legacy pane-level) passes its check;
it rejects shell actions when AllowShell is false and mux actions outside
the allowed set when passthrough is disabled; and it performs no denylist
check at all: with passthrough enabled it accepts every spec whose shell
actions are allowed and whose mux actions carry a payload with a
non-blank name, whatever those names are. -/
theorem C3_validate_policy_amended (s : spec.Spec) (pol : spec.Policy) :
    (isOkE (spec.ValidatePolicy s pol) = true ↔
      ∀ a ∈ walkedActions s,
        isOkE (spec.policyCheck pol (spec.effectiveSpecAllowlist pol) a) = true) ∧
    (pol.allowShell = false →
      (∃ a ∈ walkedActions s, a.type' = "shell") →
      isOkE (spec.ValidatePolicy s pol) = false) ∧
    (pol.allowTmuxPassthrough = false →
      (∃ a ∈ walkedActions s, a.type' = "tmux" ∧ ∃ t, a.tmux = some t ∧
        (spec.effectiveSpecAllowlist pol).contains (go.trimSpace t.name) = false) →
      isOkE (spec.ValidatePolicy s pol) = false) ∧
    (pol.allowTmuxPassthrough = true →
      (∀ a ∈ walkedActions s, a.type' = "shell" → pol.allowShell = true) →
      (∀ a ∈ walkedActions s, a.type' = "tmux" →
        ∃ t, a.tmux = some t ∧ go.trimSpace t.name ≠ "") →
      isOkE (spec.ValidatePolicy s pol) = true) := by
  refine ⟨validatePolicy_ok_iff s pol, ?_, ?_, ?_⟩
  · rintro hsh ⟨a, ha, hty⟩
    rw [Bool.eq_false_iff]
    intro hok
    have hchk := (validatePolicy_ok_iff s pol).mp hok a ha
    unfold spec.policyCheck at hchk
    rw [hty] at hchk
    simp [hsh, isOkE] at hchk
  · rintro hpt ⟨a, ha, hty, t, htm, hcont⟩
    rw [Bool.eq_false_iff]
    intro hok
    have hchk := (validatePolicy_ok_iff s pol).mp hok a ha
    unfold spec.policyCheck at hchk
    rw [hty, htm] at hchk
    by_cases hc0 : go.trimSpace t.name = ""
    · simp [hc0, isOkE] at hchk
    · have hcont2 : go.trimSpace t.name ∉ spec.effectiveSpecAllowlist pol := by
        simpa using hcont
      simp [hc0, hpt, hcont2, isOkE] at hchk
  · intro hpt hsh htm
    rw [validatePolicy_ok_iff]
    intro a ha
    unfold spec.policyCheck
    by_cases hty : a.type' = "shell"
    · simp [hty, hsh a ha hty, isOkE]
    · by_cases hty2 : a.type' = "tmux"
      · obtain ⟨t, ht, hname⟩ := htm a ha hty2
        simp [hty, hty2, ht, hname, hpt, isOkE]
      · simp [hty, hty2, isOkE]

/-- Witness for C3: ValidatePolicy rejects the run-shell passthrough spec
when passthrough is disabled (run-shell is outside the allowed set). -/
theorem C3_validate_policy_amended_witness :
    isOkE (spec.ValidatePolicy c3DenySpec { allowTmuxPassthrough := false }) = false :=
  (C3_validate_policy_amended c3DenySpec { allowTmuxPassthrough := false }).2.2.1 rfl
    ⟨{ type' := "tmux", tmux := some { name := "run-shell" } }, by decide, rfl,
     { name := "run-shell" }, rfl, by decide⟩

/-! ### Size-guard lemmas shared by the C8 theorems -/

theorem checkCommandLens_ok_iff (maxLen : Int) :
    ∀ (i : Nat) (cmds : List templates.Command),
      (isOkE (templates.checkCommandLens maxLen i cmds) = true ↔
        ∀ c ∈ cmds, templates.cmdArgTotal c ≤ maxLen) := by
  intro i cmds
  induction cmds generalizing i with
  | nil => simp [templates.checkCommandLens, isOkE_ok]
  | cons c rest ih =>
    simp only [templates.checkCommandLens]
    by_cases h : templates.cmdArgTotal c > maxLen
    · rw [if_pos h, isOkE_error]
      constructor
      · intro hfalse
        exact absurd hfalse (by simp)
      · intro hall
        exact absurd (hall c (by simp)) (by omega)
    · rw [if_neg h, ih (i + 1)]
      constructor
      · intro hall a ha
        rcases List.mem_cons.mp ha with he | hr
        · subst he
          omega
        · exact hall a hr
      · intro hall a ha
        exact hall a (List.mem_cons_of_mem c ha)

/-- C8 amended: once the earlier stages pass (non-empty session and
project path, a non-empty action list within MaxActions, and every action
compiling), Compile succeeds iff every emitted command's sum over
arguments of (byte length + 1) is at most the effective MaxCommandLen
(default 4096), and fails iff some command exceeds it — the guard counts
one extra byte per argument on top of the plain byte sum. -/
theorem C8_size_guard_amended (pol : templates.Policy) (sys : Sys)
    (ctx : templates.Context) (sp : templates.Spec)
    (cmds : List templates.Command) (u : Bool) (ws : List String)
    (h1 : ctx.sessionName ≠ "") (h2 : ctx.projectPath ≠ "")
    (h3 : sp.actions ≠ [])
    (h4 : (sp.actions.length : Int) ≤ (if pol.maxActions ≤ 0 then 200 else pol.maxActions))
    (h5 : templates.compileActionsLoop pol sys (templates.normalizeCompileCtx sys ctx) 0
      sp.actions = .ok (cmds, u, ws)) :
    (templates.Compile pol sys ctx sp = .ok ⟨cmds, u, ws⟩ ↔
      ∀ c ∈ cmds, templates.cmdArgTotal c ≤
        (if pol.maxCommandLen ≤ 0 then 4096 else pol.maxCommandLen)) ∧
    (isOkE (templates.Compile pol sys ctx sp) = false ↔
      ∃ c ∈ cmds, templates.cmdArgTotal c >
        (if pol.maxCommandLen ≤ 0 then 4096 else pol.maxCommandLen)) := by
  have hC : templates.Compile pol sys ctx sp =
      (match templates.checkCommandLens
          (if pol.maxCommandLen ≤ 0 then 4096 else pol.maxCommandLen) 0 cmds with
       | .error e => .error e
       | .ok _ => .ok ⟨cmds, u, ws⟩) := by
    unfold templates.Compile
    simp only [if_neg h1, if_neg h2, if_neg h3, if_neg (not_lt.mpr h4), h5]
  have hiff := checkCommandLens_ok_iff
    (if pol.maxCommandLen ≤ 0 then 4096 else pol.maxCommandLen) 0 cmds
  rw [hC]
  cases hk : templates.checkCommandLens
      (if pol.maxCommandLen ≤ 0 then 4096 else pol.maxCommandLen) 0 cmds with
  | error e =>
    rw [hk, isOkE_error] at hiff
    constructor
    · constructor
      · intro hbad
        exact absurd hbad (by simp)
      · intro hall
        exact absurd (hiff.mpr hall) (by simp)
    · rw [isOkE_error]
      constructor
      · intro _
        have hne : ¬ ∀ c ∈ cmds, templates.cmdArgTotal c ≤
            (if pol.maxCommandLen ≤ 0 then 4096 else pol.maxCommandLen) := fun hall =>
          absurd (hiff.mpr hall) (by simp)
        push_neg at hne
        obtain ⟨c, hc, hgt⟩ := hne
        exact ⟨c, hc, hgt⟩
      · intro _
        rfl
  | ok u2 =>
    rw [hk, isOkE_ok] at hiff
    constructor
    · exact ⟨fun _ => hiff.mp rfl, fun _ => rfl⟩
    · rw [isOkE_ok]
      constructor
      · intro hbad
        exact absurd hbad (by simp)
      · rintro ⟨c, hc, hgt⟩
        have := hiff.mp rfl c hc
        omega

/-- Witness for C8: with the default policy the 21 + 3-byte select-window
command is within MaxCommandLen = 4096 and Compile succeeds. -/
theorem C8_size_guard_amended_witness :
    templates.Compile templates.DefaultPolicy sys0 c8ctx c8spec =
      .ok ⟨[⟨["select-window", "-t", "demo:w"], "select window demo:w", false⟩], false, []⟩ :=
  (C8_size_guard_amended templates.DefaultPolicy sys0 c8ctx c8spec
    [⟨["select-window", "-t", "demo:w"], "select window demo:w", false⟩] false []
    (by decide) (by decide) (by decide) (by decide) (by decide)).1.mpr (by decide)

/-- C5 amended: for every spec that validates and every non-blank project
root, the compiled session name is `resolvedSessionName`: the trimmed
BuildOptions.SessionName if non-empty, else the trimmed spec session
name if non-empty, else DeriveSessionName(prefix, ProjectRoot) — and the
result additionally passes through sanitizeSessionName (lowercase, `-`,
`_` and every character outside [a-z0-9] mapped to `_`, runs of
replacements collapsed, leading/trailing `_` trimmed; DeriveSessionName's
sanitize also turns an all-stripped name into "session").  If the final
name is empty, compilation fails. -/
theorem C5_session_name_amended (s s' : spec.Spec) (opt : templates.BuildOptions) (sys : Sys)
    (hv : spec.Validate s = .ok s')
    (hroot : go.trimSpace opt.projectRoot ≠ "") :
    (resolvedSessionName s' opt sys = "" →
      isOkE (templates.BuildFromSpec s opt sys) = false) ∧
    (∀ ctx tpl u, templates.BuildFromSpec s opt sys = .ok (ctx, tpl, u) →
      ctx.sessionName = resolvedSessionName s' opt sys) := by
  constructor
  · intro hX
    simp only [resolvedSessionName] at hX
    unfold templates.BuildFromSpec
    rw [hv]
    simp only [if_neg hroot]
    rw [if_pos hX]
    rfl
  · intro ctx tpl u hok
    unfold templates.BuildFromSpec at hok
    rw [hv] at hok
    simp only [if_neg hroot] at hok
    by_cases hX : resolvedSessionName s' opt sys = ""
    · simp only [resolvedSessionName] at hX
      rw [if_pos hX] at hok
      exact absurd hok (by simp)
    · simp only [resolvedSessionName] at hX
      rw [if_neg hX] at hok
      split at hok
      · exact absurd hok (by simp)
      · split at hok
        · exact absurd hok (by simp)
        · simp only [Except.ok.injEq, Prod.mk.injEq] at hok
          obtain ⟨hctx, _⟩ := hok
          rw [← hctx]
          rfl

/-- Witness for C5: the minimal window spec with SessionName "A" resolves
to "a" = resolvedSessionName. -/
theorem C5_session_name_amended_witness :
    c5ResolvedCtx.sessionName = resolvedSessionName c5MinSpec c5opt sys0 :=
  (C5_session_name_amended c5MinSpec c5MinSpec c5opt sys0 (by decide) (by decide)).2
    c5ResolvedCtx c5ResolvedTpl false (by decide)

/-- Keeping the head of one non-matching character under the trailing-run
drop of trimSpaceL. -/
theorem dropWhileEndP_cons_of_neg (p : Char → Bool) (a : Char) (t : List Char)
    (ha : p a = false) :
    ∃ r, go.dropWhileEndP p (a :: t) = a :: r := by
  cases hc : go.dropWhileEndP p t with
  | nil =>
    refine ⟨[], ?_⟩
    unfold go.dropWhileEndP
    rw [hc]
    simp [ha]
  | cons x xs =>
    refine ⟨x :: xs, ?_⟩
    unfold go.dropWhileEndP
    rw [hc]

/-- The trailing-run drop keeps any head above an already non-empty
result. -/
theorem dropWhileEndP_cons_of_tail (p : Char → Bool) (a x : Char) (xs t : List Char)
    (h : go.dropWhileEndP p t = x :: xs) :
    go.dropWhileEndP p (a :: t) = a :: x :: xs := by
  unfold go.dropWhileEndP
  rw [h]

/-- TrimSpace keeps a two-character non-space prefix. -/
theorem trimSpaceL_head2 (a b : Char) (t : List Char)
    (ha : go.isSpace a = false) (hb : go.isSpace b = false) :
    ∃ r, go.trimSpaceL (a :: b :: t) = a :: b :: r := by
  obtain ⟨r, hr⟩ := dropWhileEndP_cons_of_neg go.isSpace b t hb
  refine ⟨r, ?_⟩
  unfold go.trimSpaceL
  rw [List.dropWhile_cons, if_neg (by simp [ha])]
  exact dropWhileEndP_cons_of_tail go.isSpace a b r (b :: t) hr

/-- Elimination form of a leading "__". -/
theorem hasPrefix2_elim (s : String) (h : go.goHasPrefix s "__" = true) :
    ∃ t, s.toList = '_' :: '_' :: t := by
  have h2 : (['_', '_'] : List Char) <+: s.toList := by
    rw [← List.isPrefixOf_iff_prefix]
    exact h
  obtain ⟨t, ht⟩ := h2
  exact ⟨t, ht.symm⟩

/-- Introduction form of a leading "__". -/
theorem hasPrefix2_intro (s : String) (t : List Char) (h : s.toList = '_' :: '_' :: t) :
    go.goHasPrefix s "__" = true := by
  show ("__".toList.isPrefixOf s.toList) = true
  rw [h, List.isPrefixOf_iff_prefix]
  exact ⟨t, rfl⟩

/-- One unfolding step of the Fields scanner on a non-space head. -/
theorem fieldsAux_cons_of_neg (fuel : Nat) (c : Char) (cs : List Char)
    (hc : go.isSpace c = false) :
    go.fieldsAux (fuel + 1) (c :: cs) =
      ((c :: cs).takeWhile (fun d => !go.isSpace d)) ::
        go.fieldsAux fuel ((c :: cs).dropWhile (fun d => !go.isSpace d)) := by
  show (if go.isSpace c = true then go.fieldsAux fuel cs
      else ((c :: cs).takeWhile (fun d => !go.isSpace d)) ::
        go.fieldsAux fuel ((c :: cs).dropWhile (fun d => !go.isSpace d))) =
    ((c :: cs).takeWhile (fun d => !go.isSpace d)) ::
      go.fieldsAux fuel ((c :: cs).dropWhile (fun d => !go.isSpace d))
  rw [if_neg (by simp [hc])]

/-- Fields keeps a two-character non-space prefix in its first field. -/
theorem fields_head2 (a b : Char) (t : List Char)
    (ha : go.isSpace a = false) (hb : go.isSpace b = false) :
    ∃ r, ((go.fields (⟨a :: b :: t⟩ : String)).headD "").toList = a :: b :: r := by
  refine ⟨t.takeWhile (fun d => !go.isSpace d), ?_⟩
  show (((go.fieldsAux (t.length + 1 + 1) (a :: b :: t)).map
      (fun l => (⟨l⟩ : String))).headD "").toList =
    a :: b :: t.takeWhile (fun d => !go.isSpace d)
  rw [fieldsAux_cons_of_neg (t.length + 1) a (b :: t) ha]
  show (a :: b :: t).takeWhile (fun d => !go.isSpace d) =
    a :: b :: t.takeWhile (fun d => !go.isSpace d)
  simp [List.takeWhile_cons, ha, hb]

/-- The extracted passthrough subcommand of an argv head that begins with
"__" also begins with "__": TrimSpace keeps the prefix, the "tmux "
strip does not fire on it, and Fields keeps the leading non-space run. -/
theorem subOf_hasPrefix2 (h : String) (hp : go.goHasPrefix h "__" = true) :
    go.goHasPrefix (templates.subOf h) "__" = true := by
  obtain ⟨t, ht⟩ := hasPrefix2_elim h hp
  obtain ⟨r, hr⟩ := trimSpaceL_head2 '_' '_' t (by decide) (by decide)
  have htrim : go.trimSpace h = (⟨'_' :: '_' :: r⟩ : String) := by
    show (⟨go.trimSpaceL h.toList⟩ : String) = _
    rw [ht, hr]
  have hnofire : go.goHasPrefix (go.trimSpace h) "tmux " = false := by
    rw [htrim]
    rfl
  have htp : go.goTrimPrefix (go.trimSpace h) "tmux " = go.trimSpace h := by
    simp [go.goTrimPrefix, hnofire]
  obtain ⟨r2, hf⟩ := fields_head2 '_' '_' r (by decide) (by decide)
  unfold templates.subOf
  rw [htp, htrim]
  exact hasPrefix2_intro _ r2 hf

/-- The head default of a list with a known optional head. -/
theorem headD_of_head (l : List String) (a d : String) (h : l.head? = some a) :
    l.headD d = a := by
  cases l with
  | nil => simp at h
  | cons x xs =>
    simp only [List.head?_cons, Option.some.injEq] at h
    simp [List.headD_cons, h]

/-- Shape of the Runner calls one executed command contributes: handler
traffic with a fixed head, or the command's argv forwarded verbatim when
its head is neither sentinel. -/
theorem commandRunnerCalls_shape (k : Nat) (cmd : templates.Command) :
    ∀ call ∈ templates.commandRunnerCalls k cmd,
      (call.callArgs.head? = some "capture-pane" ∨
        call.callArgs.head? = some "send-keys") ∨
      (call = .run cmd.args ∧ cmd.args.head? ≠ some "__wait_for_prompt__" ∧
        cmd.args.head? ≠ some "__ssh_manager_connect__") := by
  intro call hcall
  unfold templates.commandRunnerCalls at hcall
  split at hcall
  · left
    simp only [templates.execWaitForPromptCalls] at hcall
    repeat' split at hcall
    all_goals first
    | exact absurd hcall (List.not_mem_nil call)
    | (have hrep := List.eq_of_mem_replicate hcall
       subst hrep
       exact Or.inl rfl)
  · split at hcall
    · left
      simp only [templates.execSshManagerConnectCalls] at hcall
      repeat' split at hcall
      all_goals first
      | exact absurd hcall (List.not_mem_nil call)
      | (rw [List.mem_singleton] at hcall
         subst hcall
         exact Or.inr rfl)
    · right
      rw [List.mem_singleton] at hcall
      subst hcall
      refine ⟨rfl, ?_, ?_⟩ <;> assumption

/-- Runner-call heads of a head-safe command never begin with "__". -/
theorem commandRunnerCalls_headSafe (k : Nat) (cmd : templates.Command)
    (hsafe : cmd.args.head? = some "__wait_for_prompt__" ∨
      cmd.args.head? = some "__ssh_manager_connect__" ∨
      go.goHasPrefix (cmd.args.headD "") "__" = false) :
    ∀ call ∈ templates.commandRunnerCalls k cmd,
      go.goHasPrefix (call.callArgs.headD "") "__" = false := by
  intro call hcall
  rcases commandRunnerCalls_shape k cmd call hcall with hfix | ⟨hrun, hw, hs⟩
  · rcases hfix with hcap | hsend
    · rw [headD_of_head _ _ _ hcap]
      decide
    · rw [headD_of_head _ _ _ hsend]
      decide
  · subst hrun
    rcases hsafe with h | h | h
    · exact absurd h hw
    · exact absurd h hs
    · exact h

/-- Every command of the ensureSessionCmds arm is head-safe. -/
theorem ensureSessionCmds_headSafe (session cwd : String)
    (cmds : List templates.Command) (u : Bool) (ws : List String)
    (hok : templates.ensureSessionCmds session cwd = .ok (cmds, u, ws)) :
    ∀ c ∈ cmds, c.args.head? = some "__wait_for_prompt__" ∨
      c.args.head? = some "__ssh_manager_connect__" ∨
      go.goHasPrefix (c.args.headD "") "__" = false := by
  simp only [templates.ensureSessionCmds] at hok
  repeat' split at hok
  all_goals try (exact Except.noConfusion hok)
  all_goals (
    simp only [Except.ok.injEq, Prod.mk.injEq] at hok
    obtain ⟨hcmds, -⟩ := hok
    subst hcmds
    intro c hcm
    rw [List.mem_singleton] at hcm
    subst hcm)
  all_goals first
  | exact Or.inl rfl
  | exact Or.inr (Or.inl rfl)
  | exact Or.inr (Or.inr rfl)


/-- Every command of the newWindowCmds arm is head-safe. -/
theorem newWindowCmds_headSafe (sys : Sys) (ctx : templates.Context) (a : templates.Action) (session cwd : String)
    (cmds : List templates.Command) (u : Bool) (ws : List String)
    (hok : templates.newWindowCmds sys ctx a session cwd = .ok (cmds, u, ws)) :
    ∀ c ∈ cmds, c.args.head? = some "__wait_for_prompt__" ∨
      c.args.head? = some "__ssh_manager_connect__" ∨
      go.goHasPrefix (c.args.headD "") "__" = false := by
  simp only [templates.newWindowCmds] at hok
  repeat' split at hok
  all_goals try (exact Except.noConfusion hok)
  all_goals (
    simp only [Except.ok.injEq, Prod.mk.injEq] at hok
    obtain ⟨hcmds, -⟩ := hok
    subst hcmds
    intro c hcm
    rw [List.mem_singleton] at hcm
    subst hcm)
  all_goals first
  | exact Or.inl rfl
  | exact Or.inr (Or.inl rfl)
  | exact Or.inr (Or.inr rfl)


/-- Every command of the splitWindowCmds arm is head-safe. -/
theorem splitWindowCmds_headSafe (sys : Sys) (ctx : templates.Context) (a : templates.Action) (session cwd : String)
    (cmds : List templates.Command) (u : Bool) (ws : List String)
    (hok : templates.splitWindowCmds sys ctx a session cwd = .ok (cmds, u, ws)) :
    ∀ c ∈ cmds, c.args.head? = some "__wait_for_prompt__" ∨
      c.args.head? = some "__ssh_manager_connect__" ∨
      go.goHasPrefix (c.args.headD "") "__" = false := by
  simp only [templates.splitWindowCmds] at hok
  repeat' split at hok
  all_goals try (exact Except.noConfusion hok)
  all_goals (
    simp only [Except.ok.injEq, Prod.mk.injEq] at hok
    obtain ⟨hcmds, -⟩ := hok
    subst hcmds
    intro c hcm
    rw [List.mem_singleton] at hcm
    subst hcm)
  all_goals first
  | exact Or.inl rfl
  | exact Or.inr (Or.inl rfl)
  | exact Or.inr (Or.inr rfl)


/-- Every command of the renameWindowCmds arm is head-safe. -/
theorem renameWindowCmds_headSafe (a : templates.Action) (session : String)
    (cmds : List templates.Command) (u : Bool) (ws : List String)
    (hok : templates.renameWindowCmds a session = .ok (cmds, u, ws)) :
    ∀ c ∈ cmds, c.args.head? = some "__wait_for_prompt__" ∨
      c.args.head? = some "__ssh_manager_connect__" ∨
      go.goHasPrefix (c.args.headD "") "__" = false := by
  simp only [templates.renameWindowCmds] at hok
  repeat' split at hok
  all_goals try (exact Except.noConfusion hok)
  all_goals (
    simp only [Except.ok.injEq, Prod.mk.injEq] at hok
    obtain ⟨hcmds, -⟩ := hok
    subst hcmds
    intro c hcm
    rw [List.mem_singleton] at hcm
    subst hcm)
  all_goals first
  | exact Or.inl rfl
  | exact Or.inr (Or.inl rfl)
  | exact Or.inr (Or.inr rfl)


/-- Every command of the selectWindowCmds arm is head-safe. -/
theorem selectWindowCmds_headSafe (a : templates.Action) (session : String)
    (cmds : List templates.Command) (u : Bool) (ws : List String)
    (hok : templates.selectWindowCmds a session = .ok (cmds, u, ws)) :
    ∀ c ∈ cmds, c.args.head? = some "__wait_for_prompt__" ∨
      c.args.head? = some "__ssh_manager_connect__" ∨
      go.goHasPrefix (c.args.headD "") "__" = false := by
  simp only [templates.selectWindowCmds] at hok
  repeat' split at hok
  all_goals try (exact Except.noConfusion hok)
  all_goals (
    simp only [Except.ok.injEq, Prod.mk.injEq] at hok
    obtain ⟨hcmds, -⟩ := hok
    subst hcmds
    intro c hcm
    rw [List.mem_singleton] at hcm
    subst hcm)
  all_goals first
  | exact Or.inl rfl
  | exact Or.inr (Or.inl rfl)
  | exact Or.inr (Or.inr rfl)


/-- Every command of the selectPaneCmds arm is head-safe. -/
theorem selectPaneCmds_headSafe (a : templates.Action) (session : String)
    (cmds : List templates.Command) (u : Bool) (ws : List String)
    (hok : templates.selectPaneCmds a session = .ok (cmds, u, ws)) :
    ∀ c ∈ cmds, c.args.head? = some "__wait_for_prompt__" ∨
      c.args.head? = some "__ssh_manager_connect__" ∨
      go.goHasPrefix (c.args.headD "") "__" = false := by
  simp only [templates.selectPaneCmds] at hok
  repeat' split at hok
  all_goals try (exact Except.noConfusion hok)
  all_goals (
    simp only [Except.ok.injEq, Prod.mk.injEq] at hok
    obtain ⟨hcmds, -⟩ := hok
    subst hcmds
    intro c hcm
    rw [List.mem_singleton] at hcm
    subst hcm)
  all_goals first
  | exact Or.inl rfl
  | exact Or.inr (Or.inl rfl)
  | exact Or.inr (Or.inr rfl)


/-- Every command of the selectLayoutCmds arm is head-safe. -/
theorem selectLayoutCmds_headSafe (a : templates.Action) (session : String)
    (cmds : List templates.Command) (u : Bool) (ws : List String)
    (hok : templates.selectLayoutCmds a session = .ok (cmds, u, ws)) :
    ∀ c ∈ cmds, c.args.head? = some "__wait_for_prompt__" ∨
      c.args.head? = some "__ssh_manager_connect__" ∨
      go.goHasPrefix (c.args.headD "") "__" = false := by
  simp only [templates.selectLayoutCmds] at hok
  repeat' split at hok
  all_goals try (exact Except.noConfusion hok)
  all_goals (
    simp only [Except.ok.injEq, Prod.mk.injEq] at hok
    obtain ⟨hcmds, -⟩ := hok
    subst hcmds
    intro c hcm
    rw [List.mem_singleton] at hcm
    subst hcm)
  all_goals first
  | exact Or.inl rfl
  | exact Or.inr (Or.inl rfl)
  | exact Or.inr (Or.inr rfl)


/-- Every command of the sendKeysCmds arm is head-safe. -/
theorem sendKeysCmds_headSafe (sys : Sys) (ctx : templates.Context) (a : templates.Action) (session : String)
    (cmds : List templates.Command) (u : Bool) (ws : List String)
    (hok : templates.sendKeysCmds sys ctx a session = .ok (cmds, u, ws)) :
    ∀ c ∈ cmds, c.args.head? = some "__wait_for_prompt__" ∨
      c.args.head? = some "__ssh_manager_connect__" ∨
      go.goHasPrefix (c.args.headD "") "__" = false := by
  simp only [templates.sendKeysCmds] at hok
  repeat' split at hok
  all_goals try (exact Except.noConfusion hok)
  all_goals (
    simp only [Except.ok.injEq, Prod.mk.injEq] at hok
    obtain ⟨hcmds, -⟩ := hok
    subst hcmds
    intro c hcm
    rw [List.mem_singleton] at hcm
    subst hcm)
  all_goals first
  | exact Or.inl rfl
  | exact Or.inr (Or.inl rfl)
  | exact Or.inr (Or.inr rfl)


/-- Every command of the waitForPromptCmds arm is head-safe. -/
theorem waitForPromptCmds_headSafe (a : templates.Action) (session : String)
    (cmds : List templates.Command) (u : Bool) (ws : List String)
    (hok : templates.waitForPromptCmds a session = .ok (cmds, u, ws)) :
    ∀ c ∈ cmds, c.args.head? = some "__wait_for_prompt__" ∨
      c.args.head? = some "__ssh_manager_connect__" ∨
      go.goHasPrefix (c.args.headD "") "__" = false := by
  simp only [templates.waitForPromptCmds] at hok
  repeat' split at hok
  all_goals try (exact Except.noConfusion hok)
  all_goals (
    simp only [Except.ok.injEq, Prod.mk.injEq] at hok
    obtain ⟨hcmds, -⟩ := hok
    subst hcmds
    intro c hcm
    rw [List.mem_singleton] at hcm
    subst hcm)
  all_goals first
  | exact Or.inl rfl
  | exact Or.inr (Or.inl rfl)
  | exact Or.inr (Or.inr rfl)


/-- Every command of the sshConnectCmds arm is head-safe. -/
theorem sshConnectCmds_headSafe (a : templates.Action) (session : String)
    (cmds : List templates.Command) (u : Bool) (ws : List String)
    (hok : templates.sshConnectCmds a session = .ok (cmds, u, ws)) :
    ∀ c ∈ cmds, c.args.head? = some "__wait_for_prompt__" ∨
      c.args.head? = some "__ssh_manager_connect__" ∨
      go.goHasPrefix (c.args.headD "") "__" = false := by
  simp only [templates.sshConnectCmds] at hok
  repeat' split at hok
  all_goals try (exact Except.noConfusion hok)
  all_goals (
    simp only [Except.ok.injEq, Prod.mk.injEq] at hok
    obtain ⟨hcmds, -⟩ := hok
    subst hcmds
    intro c hcm
    rw [List.mem_singleton] at hcm
    subst hcm)
  all_goals first
  | exact Or.inl rfl
  | exact Or.inr (Or.inl rfl)
  | exact Or.inr (Or.inr rfl)


/-- Every command of the setOptionCmds arm is head-safe. -/
theorem setOptionCmds_headSafe (sys : Sys) (ctx : templates.Context) (a : templates.Action) (session : String)
    (cmds : List templates.Command) (u : Bool) (ws : List String)
    (hok : templates.setOptionCmds sys ctx a session = .ok (cmds, u, ws)) :
    ∀ c ∈ cmds, c.args.head? = some "__wait_for_prompt__" ∨
      c.args.head? = some "__ssh_manager_connect__" ∨
      go.goHasPrefix (c.args.headD "") "__" = false := by
  simp only [templates.setOptionCmds] at hok
  repeat' split at hok
  all_goals try (exact Except.noConfusion hok)
  all_goals (
    simp only [Except.ok.injEq, Prod.mk.injEq] at hok
    obtain ⟨hcmds, -⟩ := hok
    subst hcmds
    intro c hcm
    rw [List.mem_singleton] at hcm
    subst hcm)
  all_goals first
  | exact Or.inl rfl
  | exact Or.inr (Or.inl rfl)
  | exact Or.inr (Or.inr rfl)


/-- Every command of the displayCmds arm is head-safe. -/
theorem displayCmds_headSafe (sys : Sys) (ctx : templates.Context) (a : templates.Action)
    (cmds : List templates.Command) (u : Bool) (ws : List String)
    (hok : templates.displayCmds sys ctx a = .ok (cmds, u, ws)) :
    ∀ c ∈ cmds, c.args.head? = some "__wait_for_prompt__" ∨
      c.args.head? = some "__ssh_manager_connect__" ∨
      go.goHasPrefix (c.args.headD "") "__" = false := by
  simp only [templates.displayCmds] at hok
  repeat' split at hok
  all_goals try (exact Except.noConfusion hok)
  all_goals (
    simp only [Except.ok.injEq, Prod.mk.injEq] at hok
    obtain ⟨hcmds, -⟩ := hok
    subst hcmds
    intro c hcm
    rw [List.mem_singleton] at hcm
    subst hcm)
  all_goals first
  | exact Or.inl rfl
  | exact Or.inr (Or.inl rfl)
  | exact Or.inr (Or.inr rfl)


/-- Every command of the shellCmds arm is head-safe. -/
theorem shellCmds_headSafe (pol : templates.Policy) (sys : Sys) (ctx : templates.Context) (a : templates.Action) (session cwd : String)
    (cmds : List templates.Command) (u : Bool) (ws : List String)
    (hok : templates.shellCmds pol sys ctx a session cwd = .ok (cmds, u, ws)) :
    ∀ c ∈ cmds, c.args.head? = some "__wait_for_prompt__" ∨
      c.args.head? = some "__ssh_manager_connect__" ∨
      go.goHasPrefix (c.args.headD "") "__" = false := by
  simp only [templates.shellCmds] at hok
  repeat' split at hok
  all_goals try (exact Except.noConfusion hok)
  all_goals (
    simp only [Except.ok.injEq, Prod.mk.injEq] at hok
    obtain ⟨hcmds, -⟩ := hok
    subst hcmds
    intro c hcm
    rw [List.mem_singleton] at hcm
    subst hcm)
  all_goals first
  | exact Or.inl rfl
  | exact Or.inr (Or.inl rfl)
  | exact Or.inr (Or.inr rfl)


/-- Every command of the tmux passthrough arm is head-safe when no entry
of the effective allowlist begins with "__". -/
theorem tmuxCmds_headSafe (pol : templates.Policy) (sys : Sys)
    (ctx : templates.Context) (a : templates.Action)
    (cmds : List templates.Command) (u : Bool) (ws : List String)
    (hall : ∀ s ∈ templates.effAllow pol, go.goHasPrefix s "__" = false)
    (hok : templates.tmuxCmds pol sys ctx a = .ok (cmds, u, ws)) :
    ∀ c ∈ cmds, c.args.head? = some "__wait_for_prompt__" ∨
      c.args.head? = some "__ssh_manager_connect__" ∨
      go.goHasPrefix (c.args.headD "") "__" = false := by
  simp only [templates.tmuxCmds] at hok
  repeat' split at hok
  all_goals try (exact Except.noConfusion hok)
  all_goals (
    simp only [Except.ok.injEq, Prod.mk.injEq] at hok
    obtain ⟨hcmds, -⟩ := hok
    subst hcmds
    intro c hcm
    rw [List.mem_singleton] at hcm
    subst hcm)
  all_goals refine Or.inr (Or.inr ?_)
  all_goals
    show go.goHasPrefix ((a.tmuxArgs.map (templates.subst sys ctx)).headD "") "__" = false
  all_goals
    have hc2 : ¬¬((templates.effAllow pol).contains
        (templates.subOf ((a.tmuxArgs.map (templates.subst sys ctx)).headD "")) = true) := by
      assumption
  all_goals
    have hmem : templates.subOf ((a.tmuxArgs.map (templates.subst sys ctx)).headD "") ∈
        templates.effAllow pol := by
      have h3 := not_not.mp hc2
      simpa using h3
  all_goals
    have hnp := hall _ hmem
  all_goals
    cases hpre : go.goHasPrefix ((a.tmuxArgs.map (templates.subst sys ctx)).headD "") "__" with
    | false => rfl
    | true =>
      have h2 := subOf_hasPrefix2 _ hpre
      rw [h2] at hnp
      exact hnp

/-- Every command emitted by compileAction is one of the two sentinels or
has an argv head that does not begin with "__", provided no entry of the
effective passthrough allowlist begins with "__". -/
theorem compileAction_headSafe (pol : templates.Policy) (sys : Sys)
    (ctx : templates.Context) (a : templates.Action)
    (cmds : List templates.Command) (u : Bool) (ws : List String)
    (hall : ∀ s ∈ templates.effAllow pol, go.goHasPrefix s "__" = false)
    (hok : templates.compileAction pol sys ctx a = .ok (cmds, u, ws)) :
    ∀ c ∈ cmds, c.args.head? = some "__wait_for_prompt__" ∨
      c.args.head? = some "__ssh_manager_connect__" ∨
      go.goHasPrefix (c.args.headD "") "__" = false := by
  delta templates.compileAction at hok
  rcases eq_or_ne a.kind templates.ActionEnsureSession with h1 | h1
  · rw [if_pos h1] at hok
    exact ensureSessionCmds_headSafe _ _ _ _ _ hok
  rw [if_neg h1] at hok
  rcases eq_or_ne a.kind templates.ActionNewWindow with h2 | h2
  · rw [if_pos h2] at hok
    exact newWindowCmds_headSafe sys ctx a _ _ _ _ _ hok
  rw [if_neg h2] at hok
  rcases eq_or_ne a.kind templates.ActionSplitWindow with h3 | h3
  · rw [if_pos h3] at hok
    exact splitWindowCmds_headSafe sys ctx a _ _ _ _ _ hok
  rw [if_neg h3] at hok
  rcases eq_or_ne a.kind templates.ActionRenameWindow with h4 | h4
  · rw [if_pos h4] at hok
    exact renameWindowCmds_headSafe a _ _ _ _ hok
  rw [if_neg h4] at hok
  rcases eq_or_ne a.kind templates.ActionSelectWindow with h5 | h5
  · rw [if_pos h5] at hok
    exact selectWindowCmds_headSafe a _ _ _ _ hok
  rw [if_neg h5] at hok
  rcases eq_or_ne a.kind templates.ActionSelectPane with h6 | h6
  · rw [if_pos h6] at hok
    exact selectPaneCmds_headSafe a _ _ _ _ hok
  rw [if_neg h6] at hok
  rcases eq_or_ne a.kind templates.ActionSelectLayout with h7 | h7
  · rw [if_pos h7] at hok
    exact selectLayoutCmds_headSafe a _ _ _ _ hok
  rw [if_neg h7] at hok
  rcases eq_or_ne a.kind templates.ActionSendKeys with h8 | h8
  · rw [if_pos h8] at hok
    exact sendKeysCmds_headSafe sys ctx a _ _ _ _ hok
  rw [if_neg h8] at hok
  rcases eq_or_ne a.kind templates.ActionWaitForPrompt with h9 | h9
  · rw [if_pos h9] at hok
    exact waitForPromptCmds_headSafe a _ _ _ _ hok
  rw [if_neg h9] at hok
  rcases eq_or_ne a.kind templates.ActionSshManagerConnect with h10 | h10
  · rw [if_pos h10] at hok
    exact sshConnectCmds_headSafe a _ _ _ _ hok
  rw [if_neg h10] at hok
  rcases eq_or_ne a.kind templates.ActionSetOption with h11 | h11
  · rw [if_pos h11] at hok
    exact setOptionCmds_headSafe sys ctx a _ _ _ _ hok
  rw [if_neg h11] at hok
  rcases eq_or_ne a.kind templates.ActionDisplay with h12 | h12
  · rw [if_pos h12] at hok
    exact displayCmds_headSafe sys ctx a _ _ _ hok
  rw [if_neg h12] at hok
  rcases eq_or_ne a.kind templates.ActionShell with h13 | h13
  · rw [if_pos h13] at hok
    exact shellCmds_headSafe pol sys ctx a _ _ _ _ _ hok
  rw [if_neg h13] at hok
  rcases eq_or_ne a.kind templates.ActionTmux with h14 | h14
  · rw [if_pos h14] at hok
    exact tmuxCmds_headSafe pol sys ctx a _ _ _ hall hok
  rw [if_neg h14] at hok
  exact Except.noConfusion hok

/-- Every command of a successful compileActionsLoop is head-safe. -/
theorem compileActionsLoop_headSafe (pol : templates.Policy) (sys : Sys)
    (ctx : templates.Context)
    (hall : ∀ s ∈ templates.effAllow pol, go.goHasPrefix s "__" = false) :
    ∀ (acts : List templates.Action) (i : Nat) (cmds : List templates.Command)
      (u : Bool) (ws : List String),
      templates.compileActionsLoop pol sys ctx i acts = .ok (cmds, u, ws) →
      ∀ c ∈ cmds, c.args.head? = some "__wait_for_prompt__" ∨
        c.args.head? = some "__ssh_manager_connect__" ∨
        go.goHasPrefix (c.args.headD "") "__" = false := by
  intro acts
  induction acts with
  | nil =>
    intro i cmds u ws h c hm
    simp only [templates.compileActionsLoop, Except.ok.injEq, Prod.mk.injEq] at h
    obtain ⟨hcmds, -⟩ := h
    subst hcmds
    simp at hm
  | cons a rest ih =>
    intro i cmds u ws h c hm
    simp only [templates.compileActionsLoop] at h
    cases hca : templates.compileAction pol sys ctx a with
    | error e =>
      rw [hca] at h
      exact absurd h (by simp)
    | ok r =>
      obtain ⟨cmds1, u1, ws1⟩ := r
      rw [hca] at h
      cases hloop : templates.compileActionsLoop pol sys ctx (i + 1) rest with
      | error e =>
        rw [hloop] at h
        exact absurd h (by simp)
      | ok r2 =>
        obtain ⟨cs, u2, ws2⟩ := r2
        rw [hloop] at h
        simp only [Except.ok.injEq, Prod.mk.injEq] at h
        obtain ⟨hcmds, -⟩ := h
        subst hcmds
        rcases List.mem_append.mp hm with hm1 | hm1
        · exact compileAction_headSafe pol sys ctx a cmds1 u1 ws1 hall hca c hm1
        · exact ih (i + 1) cs u2 ws2 hloop c hm1

/-- Every command of a successful Compile is head-safe. -/
theorem Compile_headSafe (pol : templates.Policy) (sys : Sys)
    (ctx : templates.Context) (sp : templates.Spec) (comp : templates.Compiled)
    (hall : ∀ s ∈ templates.effAllow pol, go.goHasPrefix s "__" = false)
    (hc : templates.Compile pol sys ctx sp = .ok comp) :
    ∀ c ∈ comp.commands, c.args.head? = some "__wait_for_prompt__" ∨
      c.args.head? = some "__ssh_manager_connect__" ∨
      go.goHasPrefix (c.args.headD "") "__" = false := by
  simp only [templates.Compile] at hc
  repeat' split at hc
  all_goals try (exact Except.noConfusion hc)
  all_goals simp only [Except.ok.injEq] at hc
  all_goals subst hc
  all_goals intro c hm
  all_goals
    exact compileActionsLoop_headSafe pol sys (templates.normalizeCompileCtx sys ctx) hall
      sp.actions 0 _ _ _ (by assumption) c hm

/-- The payload of an enumerated entry is in the underlying list. -/
theorem mem_enumFrom_snd {α : Type} :
    ∀ (l : List α) (i : Nat) (ci : Nat × α), ci ∈ List.enumFrom i l → ci.2 ∈ l := by
  intro l
  induction l with
  | nil =>
    intro i ci h
    simp [List.enumFrom] at h
  | cons x xs ih =>
    intro i ci h
    rw [show List.enumFrom i (x :: xs) = (i, x) :: List.enumFrom (i + 1) xs from rfl] at h
    rcases List.mem_cons.mp h with h | h
    · rw [h]
      exact List.mem_cons_self _ _
    · exact List.mem_cons_of_mem _ (ih _ _ h)

/-- Membership in the Execute trace comes from some compiled command. -/
theorem executeRunnerCalls_mem_split (polls : Nat → Nat) (n : Nat)
    (comp : templates.Compiled) (call : templates.RunnerCall)
    (h : call ∈ templates.executeRunnerCalls polls n comp) :
    ∃ k cmd, cmd ∈ comp.commands ∧ call ∈ templates.commandRunnerCalls k cmd := by
  unfold templates.executeRunnerCalls at h
  rw [List.mem_flatten] at h
  obtain ⟨l, hl, hcl⟩ := h
  rw [List.mem_map] at hl
  obtain ⟨ci, hci, rfl⟩ := hl
  refine ⟨polls ci.1, ci.2, ?_, hcl⟩
  exact List.mem_of_mem_take (mem_enumFrom_snd (comp.commands.take n) 0 ci hci)

/-- C7 (amended): the executor never hands the two reserved sentinels to
the Runner — their commands are dispatched to handlers whose Runner
traffic is headed capture-pane or send-keys, and every other command is
forwarded with a non-sentinel head — and, under any policy whose
effective passthrough allowlist has no entry beginning with "__" (the
default policy qualifies), every Runner call recorded while executing a
compiled plan has a first argument that does not begin with "__". -/
theorem C7_sentinel_opacity_amended (pol : templates.Policy) (sys : Sys)
    (ctx : templates.Context) (sp : templates.Spec) (c : templates.Compiled)
    (polls : Nat → Nat) (n k : Nat) (cmd : templates.Command)
    (hall : ∀ s ∈ templates.effAllow pol, go.goHasPrefix s "__" = false)
    (hc : templates.Compile pol sys ctx sp = .ok c) :
    (∀ call ∈ templates.commandRunnerCalls k cmd,
        call.callArgs.head? ≠ some "__wait_for_prompt__" ∧
        call.callArgs.head? ≠ some "__ssh_manager_connect__") ∧
    (∀ call ∈ templates.executeRunnerCalls polls n c,
        go.goHasPrefix (call.callArgs.headD "") "__" = false) := by
  constructor
  · intro call hcall
    rcases commandRunnerCalls_shape k cmd call hcall with hfix | ⟨hrun, hw, hs⟩
    · rcases hfix with hcap | hsend
      · rw [hcap]
        exact ⟨by decide, by decide⟩
      · rw [hsend]
        exact ⟨by decide, by decide⟩
    · subst hrun
      exact ⟨hw, hs⟩
  · intro call hcall
    obtain ⟨k2, cmd2, hmem, hcc⟩ := executeRunnerCalls_mem_split polls n c call hcall
    exact commandRunnerCalls_headSafe k2 cmd2
      (Compile_headSafe pol sys ctx sp c hall hc cmd2 hmem) call hcc

/-- Witness for the amended C7: the default policy's effective allowlist
is "__"-free, the fixture plan compiles, and the one recorded Runner
call (the verbatim select-window command) has a "__"-free head. -/
theorem C7_sentinel_opacity_amended_witness :
    go.goHasPrefix
      (((templates.executeRunnerCalls (fun _ => 1) 1 c7wCompiled).headD
        (.run [])).callArgs.headD "") "__" = false :=
  (C7_sentinel_opacity_amended templates.DefaultPolicy sys0 c7wCtx c7wSpec c7wCompiled
      (fun _ => 1) 1 0 { args := [] } (by decide) (by decide)).2
    _ (by decide)
